import Mathlib

/-!
Verification development for the S2V content-generation application.

This file gives a shallow embedding, in Lean 4, of the deterministic parts of
the system that its specification talks about:

* the image prompt builder (`src/utils/imagePromptBuilder.ts`) together with
  its preset tables (`src/constants/imagePromptPresets.ts`);
* the video prompt builder (`videoPromptBuilder.ts`) with its preset tables
  (`videoPromptPresets.ts`);
* the scene-to-part splitting used by the long-form export;
* the `/api/generate-video` handler (`src/api/generate-video.ts`): API-key
  selection, request validation, duration mapping, and its polling loop
  against the Hailuo prediction API;
* the OpenAI API-key selection helper (`src/api/lib/openai.ts`).

JavaScript conventions used by the embedding:

* An optional / possibly-`undefined` string is an `Option String`; JS
  truthiness for strings (where both `undefined` and `""` are falsy) is the
  predicate `jsTruthy`, and `a || b` on such values is `jsOr a b`.
* A JS number field that the code only tests for truthiness and interpolates
  is a `Nat` with `0` playing the role of a falsy/absent value.
* Asynchronous effects (HTTP calls, the database lookup, `setTimeout`) are
  resolved by explicit oracles passed to the embedded function, and real time
  is idealized: each `setTimeout(pollInterval)` advances the clock by exactly
  `pollInterval` milliseconds and the HTTP round-trips are instantaneous.
-/

namespace S2V

/-- JS truthiness of a `string | undefined` value: `undefined` and `""` are
falsy, every other string is truthy. -/
def jsTruthy : Option String → Bool
  | none => false
  | some s => s != ""

/-- JS `a || b` on `string | undefined` values. -/
def jsOr (a b : Option String) : Option String :=
  if jsTruthy a then a else b

/-- JS `a ? a : b` / `a || b` where the fallback is a definitely-present
string. -/
def jsOrStr (a : Option String) (b : String) : String :=
  match a with
  | none => b
  | some s => if s != "" then s else b

/-- JS `haystack.includes(needle)` on strings. -/
def jsIncludes (haystack needle : String) : Bool :=
  decide (needle.toList <:+: haystack.toList)

-- =============================================
-- Image prompt presets (src/constants/imagePromptPresets.ts)
-- =============================================

namespace ImageP

/-- Only the `prompt` field of each preset record is embedded: it is the only
field the prompt builders read.  (The remaining fields — labels, Korean
descriptions, `bestFor` lists and so on — are UI metadata.) -/
structure Preset where
  prompt : String
deriving DecidableEq, Repr

inductive ShotTypeKey
  | extremeCloseUp | closeUp | mediumCloseUp | medium | mediumWide | wide | extremeWide
deriving DecidableEq, Repr

def SHOT_TYPES : ShotTypeKey → Preset
  | .extremeCloseUp => ⟨"extreme close-up shot"⟩
  | .closeUp => ⟨"close-up shot"⟩
  | .mediumCloseUp => ⟨"medium close-up shot"⟩
  | .medium => ⟨"medium shot"⟩
  | .mediumWide => ⟨"medium wide shot"⟩
  | .wide => ⟨"wide shot"⟩
  | .extremeWide => ⟨"extreme wide establishing shot"⟩

inductive CameraAngleKey
  | eyeLevel | lowAngle | highAngle | birdsEye | wormsEye | dutch | overShoulder
deriving DecidableEq, Repr

def CAMERA_ANGLES : CameraAngleKey → Preset
  | .eyeLevel => ⟨"eye-level angle"⟩
  | .lowAngle => ⟨"low-angle shot looking up"⟩
  | .highAngle => ⟨"high-angle shot looking down"⟩
  | .birdsEye => ⟨"bird\x27s eye view from directly above"⟩
  | .wormsEye => ⟨"worm\x27s eye view from ground level"⟩
  | .dutch => ⟨"dutch angle tilted frame"⟩
  | .overShoulder => ⟨"over-the-shoulder shot"⟩

inductive LensKey
  | wide24 | standard35 | normal50 | portrait85 | telephoto135 | compressed200
deriving DecidableEq, Repr

def LENSES : LensKey → Preset
  | .wide24 => ⟨"24mm wide-angle lens, f/2.8"⟩
  | .standard35 => ⟨"35mm lens, f/1.8, shallow depth of field"⟩
  | .normal50 => ⟨"50mm lens, f/1.4, natural perspective"⟩
  | .portrait85 => ⟨"85mm portrait lens, f/1.8, creamy bokeh background"⟩
  | .telephoto135 => ⟨"135mm telephoto lens, f/2, compressed perspective"⟩
  | .compressed200 => ⟨"200mm telephoto lens, heavily compressed perspective"⟩

inductive LightingKey
  | naturalSoft | naturalGolden | naturalBlue | studioSoft | studioDramatic
  | rimLight | neon | lowKey | highKey | silhouette
deriving DecidableEq, Repr

def LIGHTINGS : LightingKey → Preset
  | .naturalSoft => ⟨"soft natural light, diffused daylight, gentle shadows"⟩
  | .naturalGolden => ⟨"golden hour warm sunlight, long shadows, orange rim light"⟩
  | .naturalBlue => ⟨"blue hour twilight, cool ambient light, magical atmosphere"⟩
  | .studioSoft => ⟨"professional softbox lighting, even illumination, minimal shadows"⟩
  | .studioDramatic => ⟨"dramatic studio lighting, strong key light, deep shadows"⟩
  | .rimLight => ⟨"strong rim light from behind, edge lighting, silhouette highlights"⟩
  | .neon => ⟨"colorful neon lighting, red and blue rim lights, urban night atmosphere"⟩
  | .lowKey => ⟨"low-key lighting, mostly shadows, single light source, film noir"⟩
  | .highKey => ⟨"high-key lighting, bright and even, minimal shadows, clean look"⟩
  | .silhouette => ⟨"backlit silhouette, strong backlight, subject in shadow"⟩

inductive EnvironmentKey
  | studioWhite | studioDark | indoorModern | indoorCozy | indoorLuxury
  | urbanStreet | urbanNight | urbanRain | natureForest | natureBeach | natureMountain
deriving DecidableEq, Repr

def ENVIRONMENTS : EnvironmentKey → Preset
  | .studioWhite => ⟨"clean white studio background, professional photography setup, seamless backdrop"⟩
  | .studioDark => ⟨"dark studio background, black backdrop, dramatic lighting setup"⟩
  | .indoorModern => ⟨"modern minimalist interior, clean lines, contemporary furniture, large windows"⟩
  | .indoorCozy => ⟨"cozy warm interior, soft textures, warm lighting, comfortable atmosphere"⟩
  | .indoorLuxury => ⟨"luxurious elegant interior, high-end decor, sophisticated atmosphere"⟩
  | .urbanStreet => ⟨"urban city street, modern buildings, bustling atmosphere"⟩
  | .urbanNight => ⟨"city street at night, neon signs, street lights, urban nightlife"⟩
  | .urbanRain => ⟨"rainy urban street, wet asphalt reflections, rain streaks, moody atmosphere"⟩
  | .natureForest => ⟨"lush forest setting, trees, natural greenery, dappled sunlight"⟩
  | .natureBeach => ⟨"beach setting, ocean waves, sandy shore, horizon line"⟩
  | .natureMountain => ⟨"mountain landscape, peaks, dramatic scenery, natural grandeur"⟩

inductive MaterialKey
  | skinNatural | skinDewy | fabricSilk | fabricCotton | fabricLeather
  | metalChrome | metalMatte | glassClear | waterDroplets | textureRough
deriving DecidableEq, Repr

def MATERIALS : MaterialKey → Preset
  | .skinNatural => ⟨"natural skin texture, realistic pores, subtle imperfections"⟩
  | .skinDewy => ⟨"dewy glowing skin, healthy shine, hydrated look"⟩
  | .fabricSilk => ⟨"silk fabric texture, smooth sheen, elegant draping"⟩
  | .fabricCotton => ⟨"cotton fabric texture, soft matte, natural wrinkles"⟩
  | .fabricLeather => ⟨"leather texture, rich grain, subtle sheen"⟩
  | .metalChrome => ⟨"chrome metal surface, mirror reflections, polished shine"⟩
  | .metalMatte => ⟨"matte metal texture, brushed surface, subtle reflections"⟩
  | .glassClear => ⟨"clear glass, refractions, transparent surface"⟩
  | .waterDroplets => ⟨"water droplets on surface, condensation, wet texture"⟩
  | .textureRough => ⟨"rough textured surface, visible grain, tactile quality"⟩

inductive StyleKey
  | photorealCinematic | photorealEditorial | photorealDocumentary | photorealPortrait
  | filmKodak | filmNoir | cleanMinimal | moodyDramatic
deriving DecidableEq, Repr

def STYLES : StyleKey → Preset
  | .photorealCinematic => ⟨"ultra photoreal, cinematic color grading, movie still quality, professional cinematography"⟩
  | .photorealEditorial => ⟨"high-fashion editorial photography, magazine quality, sophisticated styling"⟩
  | .photorealDocumentary => ⟨"raw documentary style, candid moment, authentic and unposed"⟩
  | .photorealPortrait => ⟨"professional portrait photography, flattering lighting, beautiful skin tones"⟩
  | .filmKodak => ⟨"shot on Kodak Portra 400 film, natural film grain, warm color tones"⟩
  | .filmNoir => ⟨"film noir style, high contrast black and white, dramatic shadows"⟩
  | .cleanMinimal => ⟨"clean minimalist aesthetic, simple composition, uncluttered"⟩
  | .moodyDramatic => ⟨"moody dramatic atmosphere, emotional intensity, cinematic tension"⟩

inductive QualityKey
  | highDetail | eightK | sharp | cleanEdges | printReady
deriving DecidableEq, Repr

def QUALITY_KEYWORDS : QualityKey → Preset
  | .highDetail => ⟨"highly detailed, intricate details"⟩
  | .eightK => ⟨"8K resolution, ultra high definition"⟩
  | .sharp => ⟨"tack sharp focus, crisp details"⟩
  | .cleanEdges => ⟨"clean edges, no artifacts"⟩
  | .printReady => ⟨"print-ready quality, professional grade"⟩

def IMAGE_NEGATIVE_PROMPTS_default : List String :=
  ["blurry", "low resolution", "lowres", "jpeg artifacts", "compression artifacts",
   "watermark", "text", "logo", "signature"]

def IMAGE_NEGATIVE_PROMPTS_human : List String :=
  ["deformed face", "distorted face", "extra fingers", "extra limbs", "mutated hands",
   "bad anatomy", "weird eyes", "crossed eyes", "plastic skin", "uncanny valley"]

def IMAGE_NEGATIVE_PROMPTS_style : List String :=
  ["cartoon", "anime", "illustration", "painting", "drawing", "3d render", "cgi"]

inductive OptionalNegativeKey
  | noOversaturated | noHdr | noVignette | noGrain
deriving DecidableEq, Repr

def IMAGE_NEGATIVE_PROMPTS_optional : OptionalNegativeKey → Preset
  | .noOversaturated => ⟨"oversaturated, overly vibrant colors"⟩
  | .noHdr => ⟨"HDR, overprocessed, over-sharpened"⟩
  | .noVignette => ⟨"heavy vignette, dark corners"⟩
  | .noGrain => ⟨"excessive grain, noisy"⟩

inductive MoodKey
  | romantic | dramatic | peaceful | energetic | mysterious | melancholic | luxurious | natural
deriving DecidableEq, Repr

/-- Image mood preset.  The embedded fields are the ones read by
`getRecommendationByMood`. -/
structure MoodPreset where
  labelKo : String
  suggestedLighting : LightingKey
  suggestedEnvironment : EnvironmentKey
  suggestedStyle : StyleKey
  suggestedLens : LensKey
  colorTone : String
deriving DecidableEq, Repr

def MOODS : MoodKey → MoodPreset
  | .romantic => ⟨"로맨틱", .naturalGolden, .natureBeach, .photorealCinematic, .portrait85, "warm tones, soft contrast"⟩
  | .dramatic => ⟨"드라마틱", .lowKey, .studioDark, .moodyDramatic, .portrait85, "high contrast, deep shadows"⟩
  | .peaceful => ⟨"평화로운", .naturalSoft, .natureForest, .photorealDocumentary, .normal50, "soft, muted colors"⟩
  | .energetic => ⟨"에너지틱", .studioDramatic, .urbanStreet, .photorealEditorial, .standard35, "vibrant, punchy colors"⟩
  | .mysterious => ⟨"미스터리", .silhouette, .urbanNight, .filmNoir, .normal50, "desaturated, cool tones"⟩
  | .melancholic => ⟨"멜랑콜리", .naturalBlue, .urbanRain, .moodyDramatic, .standard35, "cool, desaturated"⟩
  | .luxurious => ⟨"럭셔리", .studioSoft, .indoorLuxury, .photorealEditorial, .portrait85, "rich, sophisticated"⟩
  | .natural => ⟨"자연스러운", .naturalSoft, .indoorModern, .photorealDocumentary, .normal50, "true to life colors"⟩

inductive FramingKey
  | ruleOfThirdsLeft | ruleOfThirdsRight | center | negativeSpaceTop | negativeSpaceSide | foregroundFrame
deriving DecidableEq, Repr

def FRAMINGS : FramingKey → Preset
  | .ruleOfThirdsLeft => ⟨"subject positioned on left third, rule of thirds composition"⟩
  | .ruleOfThirdsRight => ⟨"subject positioned on right third, rule of thirds composition"⟩
  | .center => ⟨"subject centered in frame, symmetrical composition"⟩
  | .negativeSpaceTop => ⟨"large negative space at top of frame, subject in lower portion"⟩
  | .negativeSpaceSide => ⟨"negative space on one side, subject offset"⟩
  | .foregroundFrame => ⟨"foreground elements framing the subject, depth layers"⟩

/-- `IMAGE_DEFAULT_SELECTIONS` from the presets module. -/
structure DefaultSelections where
  shotType : ShotTypeKey
  cameraAngle : CameraAngleKey
  lens : LensKey
  lighting : LightingKey
  environment : EnvironmentKey
  style : StyleKey
  quality : List QualityKey
  framing : FramingKey
  materials : List MaterialKey
  negativeOptional : List OptionalNegativeKey
deriving DecidableEq, Repr

def IMAGE_DEFAULT_SELECTIONS : DefaultSelections :=
  ⟨.medium, .eyeLevel, .portrait85, .naturalSoft, .studioWhite, .photorealCinematic,
   [.highDetail, .eightK, .sharp], .ruleOfThirdsLeft, [], []⟩

end ImageP

-- =============================================
-- Image prompt builder (src/utils/imagePromptBuilder.ts)
-- =============================================

/-- The `Character` record as used by the prompt builders (the interface
itself lives outside `src/`; the fields below are exactly the ones the
builders read, with JS truthiness: `""` for an absent string field and
`0` for an absent numeric `age`). -/
structure Character where
  name : String
  age : Nat
  personality : String
  outfit : String
deriving DecidableEq, Repr

namespace ImageP

structure ImagePromptConfig where
  subject : String
  isHuman : Bool
  shotType : ShotTypeKey
  cameraAngle : CameraAngleKey
  framing : FramingKey
  lens : LensKey
  environment : EnvironmentKey
  customEnvironment : Option String
  lighting : LightingKey
  materials : List MaterialKey
  style : StyleKey
  quality : List QualityKey
  negativeOptional : List OptionalNegativeKey
  additionalDetails : Option String
deriving DecidableEq, Repr

structure Breakdown where
  subject : String
  setting : String
  composition : String
  camera : String
  lighting : String
  material : String
  style : String
  quality : String
deriving DecidableEq, Repr

structure GeneratedImagePrompt where
  fullPrompt : String
  negativePrompt : String
  breakdown : Breakdown
deriving DecidableEq, Repr

structure AIImageRecommendation where
  shotType : ShotTypeKey
  cameraAngle : CameraAngleKey
  lens : LensKey
  lighting : LightingKey
  environment : EnvironmentKey
  style : StyleKey
  framing : FramingKey
  reasoning : String
deriving DecidableEq, Repr

/-- `buildSubjectFromCharacter` (imagePromptBuilder.ts): `'Korean'`, then the
optional age and personality, then `'person'`, then the optional outfit. -/
def buildSubjectFromCharacter (character : Character) : String :=
  let parts : List String :=
    ["Korean"]
      ++ (if character.age ≠ 0 then [toString character.age ++ " year old"] else [])
      ++ (if character.personality ≠ "" then [character.personality.toLower] else [])
      ++ ["person"]
      ++ (if character.outfit ≠ "" then ["wearing " ++ character.outfit.toLower] else [])
  let namePre := if character.name ≠ "" then character.name ++ ", " else ""
  namePre ++ "a " ++ String.intercalate " " parts

/-- `buildImagePrompt` (imagePromptBuilder.ts, lines 134-213). -/
def buildImagePrompt (config : ImagePromptConfig) : GeneratedImagePrompt :=
  -- 1. Subject
  let subject := config.subject
  -- 2. Setting / Environment
  let envPreset := jsOrStr config.customEnvironment (ENVIRONMENTS config.environment).prompt
  -- 3. Composition
  let compositionString :=
    (SHOT_TYPES config.shotType).prompt ++ ", " ++ (CAMERA_ANGLES config.cameraAngle).prompt
      ++ ", " ++ (FRAMINGS config.framing).prompt
  -- 4. Camera/Lens
  let cameraString := (LENSES config.lens).prompt
  -- 5. Lighting
  let lightingString := (LIGHTINGS config.lighting).prompt
  -- 6. Materials
  let materialPrompts := (config.materials.map (fun k => (MATERIALS k).prompt)).filter (· != "")
  let materialString :=
    if materialPrompts.length > 0 then String.intercalate ", " materialPrompts else ""
  -- 7. Style
  let styleString := (STYLES config.style).prompt
  -- 8. Quality
  let qualityPrompts := (config.quality.map (fun k => (QUALITY_KEYWORDS k).prompt)).filter (· != "")
  let qualityString := String.intercalate ", " qualityPrompts
  -- Build full prompt
  let promptParts :=
    [subject, envPreset, compositionString, cameraString, lightingString,
     materialString, styleString, qualityString,
     config.additionalDetails.getD ""].filter (· != "")
  let fullPrompt := String.intercalate ". " promptParts ++ "."
  -- Build negative prompt
  let negativePrompts :=
    IMAGE_NEGATIVE_PROMPTS_default
      ++ (if config.isHuman then IMAGE_NEGATIVE_PROMPTS_human else [])
      ++ IMAGE_NEGATIVE_PROMPTS_style
      ++ config.negativeOptional.map (fun k => (IMAGE_NEGATIVE_PROMPTS_optional k).prompt)
  let negativePrompt := String.intercalate ", " negativePrompts
  ⟨fullPrompt, negativePrompt,
   ⟨subject, envPreset, compositionString, cameraString, lightingString,
    materialString, styleString, qualityString⟩⟩

/-- `getRecommendationByMood` (imagePromptBuilder.ts). -/
def getRecommendationByMood (mood : MoodKey) : AIImageRecommendation :=
  let moodPreset := MOODS mood
  ⟨IMAGE_DEFAULT_SELECTIONS.shotType, IMAGE_DEFAULT_SELECTIONS.cameraAngle,
   moodPreset.suggestedLens, moodPreset.suggestedLighting, moodPreset.suggestedEnvironment,
   moodPreset.suggestedStyle, IMAGE_DEFAULT_SELECTIONS.framing,
   moodPreset.labelKo ++ " 분위기에 최적화된 설정입니다. 톤: " ++ moodPreset.colorTone⟩

structure SubjectAnalysis where
  suggestedShot : ShotTypeKey
  suggestedAngle : CameraAngleKey
  suggestedLens : LensKey
  isHuman : Bool
deriving DecidableEq, Repr

/-- `analyzeSubjectForSettings` (imagePromptBuilder.ts, lines 236-307). -/
def analyzeSubjectForSettings (subject : String) : SubjectAnalysis :=
  let subjectLower := subject.toLower
  let humanKeywords := ["person", "man", "woman", "people", "portrait", "face", "model",
    "사람", "여자", "남자", "인물"]
  let isHuman := humanKeywords.any (fun kw => jsIncludes subjectLower kw)
  let emotionKeywords := ["emotion", "expression", "face", "eyes", "smile", "cry",
    "표정", "감정", "눈", "미소"]
  let isEmotionFocused := emotionKeywords.any (fun kw => jsIncludes subjectLower kw)
  let detailKeywords := ["detail", "texture", "close", "lips", "hands",
    "디테일", "질감", "입술", "손"]
  let isDetailFocused := detailKeywords.any (fun kw => jsIncludes subjectLower kw)
  let actionKeywords := ["action", "running", "walking", "dancing", "full body",
    "액션", "달리", "걷", "춤", "전신"]
  let isActionFocused := actionKeywords.any (fun kw => jsIncludes subjectLower kw)
  let landscapeKeywords := ["landscape", "scenery", "view", "panorama", "풍경", "전경", "뷰"]
  let isLandscape := landscapeKeywords.any (fun kw => jsIncludes subjectLower kw)
  let suggestedShot : ShotTypeKey :=
    if isDetailFocused then .extremeCloseUp
    else if isEmotionFocused then .closeUp
    else if isActionFocused then .wide
    else if isLandscape then .extremeWide
    else if isHuman then .medium
    else .medium
  let powerKeywords := ["hero", "powerful", "strong", "영웅", "강한", "힘"]
  let vulnerableKeywords := ["small", "vulnerable", "weak", "작은", "약한"]
  let suggestedAngle : CameraAngleKey :=
    if vulnerableKeywords.any (fun kw => jsIncludes subjectLower kw) then .highAngle
    else if powerKeywords.any (fun kw => jsIncludes subjectLower kw) then .lowAngle
    else .eyeLevel
  let suggestedLens : LensKey :=
    if isLandscape then .wide24
    else if isDetailFocused then .telephoto135
    else if isHuman then .portrait85
    else .normal50
  ⟨suggestedShot, suggestedAngle, suggestedLens, isHuman⟩

/-- `getAIRecommendation` (imagePromptBuilder.ts, lines 312-343). -/
def getAIRecommendation (subject : String) (mood : Option MoodKey) : AIImageRecommendation :=
  let subjectAnalysis := analyzeSubjectForSettings subject
  match mood with
  | some m =>
    let moodRec := getRecommendationByMood m
    ⟨subjectAnalysis.suggestedShot, subjectAnalysis.suggestedAngle,
     (if subjectAnalysis.isHuman then moodRec.lens else subjectAnalysis.suggestedLens),
     moodRec.lighting, moodRec.environment, moodRec.style, moodRec.framing,
     "\"" ++ subject ++ "\" 주제와 " ++ (MOODS m).labelKo ++ " 분위기에 맞춰 추천합니다."⟩
  | none =>
    ⟨subjectAnalysis.suggestedShot, subjectAnalysis.suggestedAngle,
     subjectAnalysis.suggestedLens, IMAGE_DEFAULT_SELECTIONS.lighting,
     IMAGE_DEFAULT_SELECTIONS.environment, IMAGE_DEFAULT_SELECTIONS.style,
     IMAGE_DEFAULT_SELECTIONS.framing,
     "\"" ++ subject ++ "\" 주제에 맞춰 추천합니다."⟩

/-- `createDefaultImageConfig` (imagePromptBuilder.ts). -/
def createDefaultImageConfig (subject : String := "") (isHuman : Bool := true) :
    ImagePromptConfig :=
  ⟨subject, isHuman, IMAGE_DEFAULT_SELECTIONS.shotType, IMAGE_DEFAULT_SELECTIONS.cameraAngle,
   IMAGE_DEFAULT_SELECTIONS.framing, IMAGE_DEFAULT_SELECTIONS.lens,
   IMAGE_DEFAULT_SELECTIONS.environment, none, IMAGE_DEFAULT_SELECTIONS.lighting,
   [], IMAGE_DEFAULT_SELECTIONS.style, IMAGE_DEFAULT_SELECTIONS.quality, [], none⟩

/-- `applyImageRecommendation` (imagePromptBuilder.ts). -/
def applyImageRecommendation (config : ImagePromptConfig)
    (recommendation : AIImageRecommendation) : ImagePromptConfig :=
  { config with
    shotType := recommendation.shotType
    cameraAngle := recommendation.cameraAngle
    lens := recommendation.lens
    lighting := recommendation.lighting
    environment := recommendation.environment
    style := recommendation.style
    framing := recommendation.framing }

/-- `buildSimpleImagePrompt` (imagePromptBuilder.ts, lines 390-404). -/
def buildSimpleImagePrompt (subject : String) (mood : Option MoodKey)
    (isHuman : Bool := true) : String :=
  let config := createDefaultImageConfig subject isHuman
  match mood with
  | some m =>
    let recommendation := getAIRecommendation subject (some m)
    let updatedConfig := applyImageRecommendation config recommendation
    (buildImagePrompt updatedConfig).fullPrompt
  | none => (buildImagePrompt config).fullPrompt

end ImageP

-- =============================================
-- Video prompt presets (videoPromptPresets.ts)
-- =============================================

namespace VideoP

/-- Only the `prompt` field of each video preset record is embedded (see the
remark on `ImageP.Preset`). -/
structure Preset where
  prompt : String
deriving DecidableEq, Repr

inductive CameraAngleKey
  | extremeCloseUp | closeUp | medium | wide | lowAngle | highAngle | dutch | pov
deriving DecidableEq, Repr

def CAMERA_ANGLES : CameraAngleKey → Preset
  | .extremeCloseUp => ⟨"Extreme close-up shot"⟩
  | .closeUp => ⟨"Close-up shot"⟩
  | .medium => ⟨"Medium shot"⟩
  | .wide => ⟨"Wide establishing shot"⟩
  | .lowAngle => ⟨"Low-angle shot looking up"⟩
  | .highAngle => ⟨"High-angle shot looking down"⟩
  | .dutch => ⟨"Dutch angle tilted frame"⟩
  | .pov => ⟨"First-person POV shot"⟩

inductive CameraMovementKey
  | static | slowPush | slowPull | tracking | orbit | handheld | craneUp | dollyZoom | fpvDrone
deriving DecidableEq, Repr

def CAMERA_MOVEMENTS : CameraMovementKey → Preset
  | .static => ⟨"static camera"⟩
  | .slowPush => ⟨"slow subtle push-in"⟩
  | .slowPull => ⟨"slow pull-out revealing surroundings"⟩
  | .tracking => ⟨"smooth tracking shot following subject"⟩
  | .orbit => ⟨"orbiting around subject"⟩
  | .handheld => ⟨"subtle handheld camera movement"⟩
  | .craneUp => ⟨"crane shot rising upward"⟩
  | .dollyZoom => ⟨"dolly zoom vertigo effect"⟩
  | .fpvDrone => ⟨"fast FPV drone shot"⟩

inductive EnvironmentKey
  | neonBar | cozyCafe | luxuryHotel | studioDark | studioBright
  | rainyCity | rooftopNight | busyStreet
  | goldenHour | blueHour | beachSunset | forestMisty | snowyNight
deriving DecidableEq, Repr

def ENVIRONMENTS : EnvironmentKey → Preset
  | .neonBar => ⟨"neon-lit bar at night, red and purple rim lighting, bokeh background, reflections on glass surfaces, moody atmosphere"⟩
  | .cozyCafe => ⟨"warm cozy cafe interior, soft natural window light, wooden textures, steam rising from drinks, intimate atmosphere"⟩
  | .luxuryHotel => ⟨"luxurious hotel room, soft diffused lighting, elegant decor, city lights through window, sophisticated atmosphere"⟩
  | .studioDark => ⟨"dark studio with single spotlight, dramatic shadows, black background, high contrast lighting"⟩
  | .studioBright => ⟨"bright white studio, soft even lighting, clean minimal background, professional photography setup"⟩
  | .rainyCity => ⟨"rainy urban street at night, wet asphalt reflections, neon signs, puddles, cinematic noir atmosphere, volumetric light through rain"⟩
  | .rooftopNight => ⟨"city rooftop at night, skyline in background, city lights bokeh, cool night breeze, urban solitude"⟩
  | .busyStreet => ⟨"busy city street, crowd in motion blur, urban energy, daytime natural lighting, dynamic atmosphere"⟩
  | .goldenHour => ⟨"golden hour sunset, warm orange rim light, long shadows, magical soft glow, romantic atmosphere"⟩
  | .blueHour => ⟨"blue hour twilight, cool blue ambient light, city lights emerging, mysterious calm atmosphere"⟩
  | .beachSunset => ⟨"beach at sunset, waves crashing, orange sky reflection on water, wind in hair, freedom atmosphere"⟩
  | .forestMisty => ⟨"misty forest, volumetric light rays through trees, fog, ethereal mysterious atmosphere"⟩
  | .snowyNight => ⟨"snowy night, falling snowflakes, warm street lamp light, cold breath visible, peaceful winter atmosphere"⟩

inductive StyleKey
  | cinematic | filmGrain | anamorphic | highContrast | softDreamy | noir | vibrant | desaturated
deriving DecidableEq, Repr

def STYLES : StyleKey → Preset
  | .cinematic => ⟨"cinematic, movie-like composition, professional color grading"⟩
  | .filmGrain => ⟨"35mm film grain, analog film texture"⟩
  | .anamorphic => ⟨"anamorphic lens, horizontal lens flare, wide aspect feel"⟩
  | .highContrast => ⟨"high contrast, deep shadows, bright highlights"⟩
  | .softDreamy => ⟨"soft dreamy glow, slight haze, romantic feel"⟩
  | .noir => ⟨"film noir style, dramatic shadows, moody atmosphere"⟩
  | .vibrant => ⟨"vibrant saturated colors, punchy look"⟩
  | .desaturated => ⟨"desaturated muted colors, subtle tones"⟩

inductive QualityKey
  | hyperRealistic | eightK | detailed | unrealEngine | rayTracing
deriving DecidableEq, Repr

def QUALITY_KEYWORDS : QualityKey → Preset
  | .hyperRealistic => ⟨"hyper-realistic, photorealistic"⟩
  | .eightK => ⟨"8K resolution, ultra high definition"⟩
  | .detailed => ⟨"intricate details, sharp focus"⟩
  | .unrealEngine => ⟨"Unreal Engine 5 render quality"⟩
  | .rayTracing => ⟨"ray traced lighting, realistic reflections"⟩

def NEGATIVE_PROMPTS_default : List String :=
  ["blurry", "low quality", "distorted face", "deformed hands", "text", "watermark",
   "logo", "static image", "frame jump", "teleportation"]

inductive OptionalNegativeKey
  | noCartoon | noSlowMotion | noShake | noLensEffects | noCgLook
deriving DecidableEq, Repr

def NEGATIVE_PROMPTS_optional : OptionalNegativeKey → Preset
  | .noCartoon => ⟨"cartoon style, anime style, illustration"⟩
  | .noSlowMotion => ⟨"slow motion, speed ramp"⟩
  | .noShake => ⟨"excessive camera shake, shaky cam"⟩
  | .noLensEffects => ⟨"lens flare, chromatic aberration"⟩
  | .noCgLook => ⟨"plastic skin, CGI look, uncanny valley"⟩

inductive MoodKey
  | romantic | seductive | mysterious | melancholic | energetic | peaceful | dramatic | warm
deriving DecidableEq, Repr

/-- Video mood preset.  The embedded fields are the ones read by
`getRecommendationByMood`. -/
structure MoodPreset where
  labelKo : String
  suggestedEnvironments : List EnvironmentKey
  suggestedStyles : List StyleKey
  suggestedAngles : List CameraAngleKey
  suggestedMovements : List CameraMovementKey
deriving DecidableEq, Repr

def MOODS : MoodKey → MoodPreset
  | .romantic => ⟨"로맨틱/따뜻한", [.goldenHour, .cozyCafe, .beachSunset],
      [.cinematic, .softDreamy], [.closeUp, .medium], [.slowPush, .static, .orbit]⟩
  | .seductive => ⟨"섹시/유혹적", [.neonBar, .luxuryHotel, .studioDark],
      [.cinematic, .highContrast, .noir], [.closeUp, .extremeCloseUp, .lowAngle],
      [.slowPush, .orbit, .handheld]⟩
  | .mysterious => ⟨"미스터리/긴장", [.blueHour, .forestMisty, .rainyCity],
      [.noir, .highContrast, .desaturated], [.dutch, .lowAngle, .pov],
      [.slowPush, .handheld, .dollyZoom]⟩
  | .melancholic => ⟨"슬픔/감성", [.rainyCity, .blueHour, .snowyNight],
      [.desaturated, .filmGrain, .softDreamy], [.medium, .wide, .highAngle],
      [.slowPull, .static, .craneUp]⟩
  | .energetic => ⟨"에너지/역동", [.busyStreet, .studioBright, .beachSunset],
      [.vibrant, .highContrast, .cinematic], [.wide, .lowAngle, .pov],
      [.tracking, .fpvDrone, .handheld]⟩
  | .peaceful => ⟨"평화로운", [.snowyNight, .forestMisty, .cozyCafe],
      [.softDreamy, .desaturated, .filmGrain], [.wide, .medium],
      [.static, .slowPush, .slowPull]⟩
  | .dramatic => ⟨"드라마틱", [.studioDark, .rooftopNight, .rainyCity],
      [.highContrast, .noir, .anamorphic], [.lowAngle, .dutch, .extremeCloseUp],
      [.dollyZoom, .craneUp, .slowPush]⟩
  | .warm => ⟨"따뜻한", [.goldenHour, .cozyCafe, .luxuryHotel],
      [.cinematic, .softDreamy, .vibrant], [.medium, .closeUp],
      [.slowPush, .orbit, .static]⟩

/-- `DEFAULT_SELECTIONS` from the video presets module. -/
structure DefaultSelections where
  cameraAngle : CameraAngleKey
  cameraMovement : CameraMovementKey
  environment : EnvironmentKey
  styles : List StyleKey
  quality : List QualityKey
  negativeOptional : List OptionalNegativeKey
deriving DecidableEq, Repr

def DEFAULT_SELECTIONS : DefaultSelections :=
  ⟨.closeUp, .slowPush, .studioDark, [.cinematic, .highContrast],
   [.hyperRealistic, .eightK, .detailed], []⟩

-- =============================================
-- Video prompt builder (videoPromptBuilder.ts)
-- =============================================

structure VideoPromptConfig where
  character : Option Character
  customSubject : Option String
  action : String
  cameraAngle : CameraAngleKey
  cameraMovement : CameraMovementKey
  environment : EnvironmentKey
  customEnvironment : Option String
  styles : List StyleKey
  quality : List QualityKey
  negativeOptional : List OptionalNegativeKey
deriving DecidableEq, Repr

structure Breakdown where
  subject : String
  action : String
  camera : String
  environment : String
  style : String
  quality : String
deriving DecidableEq, Repr

structure GeneratedPrompt where
  fullPrompt : String
  negativePrompt : String
  breakdown : Breakdown
deriving DecidableEq, Repr

structure AIRecommendation where
  cameraAngle : CameraAngleKey
  cameraMovement : CameraMovementKey
  environment : EnvironmentKey
  styles : List StyleKey
  reasoning : String
deriving DecidableEq, Repr

/-- `buildSubjectFromCharacter` (videoPromptBuilder.ts, lines 84-108): the
optional age and personality, then `'Korean'`, then the optional outfit
(note the different part order from the image builder). -/
def buildSubjectFromCharacter (character : Character) : String :=
  let parts : List String :=
    (if character.age ≠ 0 then [toString character.age ++ " year old"] else [])
      ++ (if character.personality ≠ "" then [character.personality.toLower] else [])
      ++ ["Korean"]
      ++ (if character.outfit ≠ "" then ["wearing " ++ character.outfit.toLower] else [])
  let namePre := if character.name ≠ "" then character.name ++ ", " else ""
  namePre ++ "a " ++ String.intercalate " " parts

/-- `buildVideoPrompt` (videoPromptBuilder.ts, lines 113-171). -/
def buildVideoPrompt (config : VideoPromptConfig) : GeneratedPrompt :=
  -- 1. Subject
  let subject :=
    match config.character with
    | some ch => buildSubjectFromCharacter ch
    | none => jsOrStr config.customSubject "A person"
  -- 2. Action (required)
  let action := config.action.trim
  -- 3. Camera
  let cameraString :=
    (CAMERA_ANGLES config.cameraAngle).prompt ++ ", " ++ (CAMERA_MOVEMENTS config.cameraMovement).prompt
  -- 4. Environment
  let environment := jsOrStr config.customEnvironment (ENVIRONMENTS config.environment).prompt
  -- 5. Styles
  let stylePrompts := (config.styles.map (fun k => (STYLES k).prompt)).filter (· != "")
  let styleString := String.intercalate ", " stylePrompts
  -- 6. Quality
  let qualityPrompts := (config.quality.map (fun k => (QUALITY_KEYWORDS k).prompt)).filter (· != "")
  let qualityString := String.intercalate ", " qualityPrompts
  -- Build full prompt
  let fullPrompt :=
    String.intercalate ". "
      ([subject ++ " " ++ action, cameraString, environment, styleString,
        qualityString].filter (· != "")) ++ "."
  -- Build negative prompt
  let negativePrompts :=
    NEGATIVE_PROMPTS_default
      ++ config.negativeOptional.map (fun k => (NEGATIVE_PROMPTS_optional k).prompt)
  let negativePrompt := String.intercalate ", " negativePrompts
  ⟨fullPrompt, negativePrompt,
   ⟨subject, action, cameraString, environment, styleString, qualityString⟩⟩

/-- `getRecommendationByMood` (videoPromptBuilder.ts).  The source indexes
the suggestion lists with `[0]`; every list in `MOODS` is non-empty, and the
`List.getD` defaults below are never reached on that data. -/
def getRecommendationByMood (mood : MoodKey) : AIRecommendation :=
  let moodPreset := MOODS mood
  ⟨moodPreset.suggestedAngles.getD 0 .medium,
   moodPreset.suggestedMovements.getD 0 .static,
   moodPreset.suggestedEnvironments.getD 0 .studioDark,
   moodPreset.suggestedStyles,
   moodPreset.labelKo ++ " 분위기에 최적화된 설정입니다."⟩

structure ActionAnalysis where
  suggestedAngle : CameraAngleKey
  suggestedMovement : CameraMovementKey
deriving DecidableEq, Repr

/-- `analyzeActionForCamera` (videoPromptBuilder.ts, lines 191-236). -/
def analyzeActionForCamera (action : String) : ActionAnalysis :=
  let actionLower := action.toLower
  let emotionKeywords := ["smile", "cry", "laugh", "stare", "gaze", "look", "tear",
    "미소", "웃", "울", "바라", "응시"]
  let isEmotional := emotionKeywords.any (fun kw => jsIncludes actionLower kw)
  let detailKeywords := ["lip", "eye", "hand", "finger", "touch", "입술", "눈", "손", "만지"]
  let isDetail := detailKeywords.any (fun kw => jsIncludes actionLower kw)
  let movementKeywords := ["walk", "run", "dance", "jump", "move", "turn",
    "걷", "달리", "춤", "뛰", "돌아"]
  let isMovement := movementKeywords.any (fun kw => jsIncludes actionLower kw)
  let dramaticKeywords := ["fall", "fight", "scream", "collapse", "쓰러", "싸우", "소리", "무너"]
  let isDramatic := dramaticKeywords.any (fun kw => jsIncludes actionLower kw)
  let suggestedAngle : CameraAngleKey :=
    if isDetail then .extremeCloseUp
    else if isEmotional then .closeUp
    else if isMovement then .wide
    else if isDramatic then .lowAngle
    else .medium
  let suggestedMovement : CameraMovementKey :=
    if isMovement then .tracking
    else if isDramatic then .handheld
    else .slowPush
  ⟨suggestedAngle, suggestedMovement⟩

/-- `getAIRecommendation` (videoPromptBuilder.ts, lines 241-274). -/
def getAIRecommendation (action : String) (mood : Option MoodKey) : AIRecommendation :=
  let actionAnalysis := analyzeActionForCamera action
  match mood with
  | some m =>
    let moodRec := getRecommendationByMood m
    let finalAngle :=
      if actionAnalysis.suggestedAngle ≠ .medium then actionAnalysis.suggestedAngle
      else moodRec.cameraAngle
    ⟨finalAngle, actionAnalysis.suggestedMovement, moodRec.environment, moodRec.styles,
     "\"" ++ action ++ "\" 동작과 " ++ (MOODS m).labelKo ++ " 분위기에 맞춰 추천합니다."⟩
  | none =>
    ⟨actionAnalysis.suggestedAngle, actionAnalysis.suggestedMovement,
     DEFAULT_SELECTIONS.environment, DEFAULT_SELECTIONS.styles,
     "\"" ++ action ++ "\" 동작에 맞춰 추천합니다."⟩

/-- `createDefaultConfig` (videoPromptBuilder.ts). -/
def createDefaultConfig (character : Option Character := none) (action : String := "") :
    VideoPromptConfig :=
  ⟨character, none, action, DEFAULT_SELECTIONS.cameraAngle, DEFAULT_SELECTIONS.cameraMovement,
   DEFAULT_SELECTIONS.environment, none, DEFAULT_SELECTIONS.styles, DEFAULT_SELECTIONS.quality, []⟩

/-- `applyRecommendation` (videoPromptBuilder.ts). -/
def applyRecommendation (config : VideoPromptConfig) (recommendation : AIRecommendation) :
    VideoPromptConfig :=
  { config with
    cameraAngle := recommendation.cameraAngle
    cameraMovement := recommendation.cameraMovement
    environment := recommendation.environment
    styles := recommendation.styles }

/-- `buildSimplePrompt` (videoPromptBuilder.ts, lines 331-345). -/
def buildSimplePrompt (action : String) (mood : Option MoodKey)
    (character : Option Character := none) : String :=
  let config := createDefaultConfig character action
  match mood with
  | some m =>
    let recommendation := getAIRecommendation action (some m)
    let updatedConfig := applyRecommendation config recommendation
    (buildVideoPrompt updatedConfig).fullPrompt
  | none => (buildVideoPrompt config).fullPrompt

end VideoP

-- =============================================
-- Long-form export: scene-to-part splitting
-- =============================================

namespace Longform

/-- A long-form scene, as far as the splitting logic is concerned: the
splitting treats scenes as opaque values, so only identifying fields are
embedded. -/
structure LongformScene where
  id : String
  sceneNumber : Nat
deriving DecidableEq, Repr

/-- A long-form scenario; the splitting reads only its `scenes` array. -/
structure LongformScenario where
  scenes : List LongformScene
deriving DecidableEq, Repr

/-- A part range over the scene array: `start` is the 0-based inclusive
index of the first scene of the part and `stop` (named `end` in the source,
a reserved word in Lean) is its 0-based exclusive end, so the UI renders the
part as scenes `start + 1` through `stop` (1-based). -/
structure PartRange where
  start : Nat
  stop : Nat
deriving DecidableEq, Repr

instance : Inhabited PartRange := ⟨⟨0, 0⟩⟩

/-- Modelled from the spec: `calculatePartRanges` (`types/longform`) is not
under `src/`; only its callers are.  The spec describes the long-form export
as deterministic scene-to-part splitting, and the in-repo callers
(`Step4PreviewDownload.tsx`, `useLongformExport`) document that the scene
array is split into fixed parts of 2 scenes (약 2분) each, the last part
taking the remainder; ranges carry a 0-based inclusive `start` and exclusive
`end`. -/
def calculatePartRanges (totalScenes : Nat) : List PartRange :=
  (List.range ((totalScenes + 1) / 2)).map
    (fun i => ⟨2 * i, Nat.min (2 * i + 2) totalScenes⟩)

/-- The scenes of `l` whose indices lie in the half-open range `r`
(JS `l.slice(r.start, r.end)`). -/
def sliceRange (l : List LongformScene) (r : PartRange) : List LongformScene :=
  (l.drop r.start).take (r.stop - r.start)

/-- Result record of `splitScenesForExportMulti`. -/
structure SplitResult where
  parts : List (List LongformScene)
  ranges : List PartRange
deriving DecidableEq, Repr

/-- Modelled from the spec: `splitScenesForExportMulti`
(`services/longformVideoService`) is not under `src/`; only its callers are.
Per the spec and the callers it splits `scenario.scenes` into the parts
described by `calculatePartRanges (scenario.scenes.length)`, each part being
the slice of the scene array over its range. -/
def splitScenesForExportMulti (scenario : LongformScenario) : SplitResult :=
  let ranges := calculatePartRanges scenario.scenes.length
  ⟨ranges.map (sliceRange scenario.scenes), ranges⟩

/-- A concrete five-scene scenario (an odd count, so the last part is a
single scene). -/
def sampleScenario : LongformScenario :=
  ⟨[⟨"s1", 1⟩, ⟨"s2", 2⟩, ⟨"s3", 3⟩, ⟨"s4", 4⟩, ⟨"s5", 5⟩]⟩

end Longform

-- =============================================
-- /api/generate-video handler (src/api/generate-video.ts)
-- =============================================

namespace GenVideo

def HAILUO_MODEL : String := "minimax-hailuo-v2-3-fast-standard-image-to-video"

def HAILUO_VERSION : String := "0.0.1"

/-- `user.settings` as read by the key-selection code. -/
structure UserSettings where
  hailuoApiKey : Option String
  openaiApiKey : Option String
deriving DecidableEq, Repr

/-- A stored user record, as read by the key-selection code. -/
structure User where
  isAdmin : Bool
  settings : Option UserSettings
deriving DecidableEq, Repr

/-- The Hailuo API-key selection of the generate-video handler (lines 81-88;
the generate-food-video handler, `src/unnamed/part_003`, lines 69-76, is
word-for-word the same): an admin uses the `HAILUO_API_KEY` environment
variable exclusively; any other requester uses the stored user key, falling
back to the environment variable. -/
def hailuoApiKeyFor (user : Option User) (envKey : Option String) : Option String :=
  if (user.map (·.isAdmin)).getD false then envKey
  else jsOr ((user.bind (·.settings)).bind (·.hailuoApiKey)) envKey

/-- `getOpenAIKeyForUser` (src/api/lib/openai.ts, lines 18-32), with the
database lookup resolved by the `user` argument. -/
def getOpenAIKeyForUser (user : Option User) (envKey : Option String) :
    Except String String :=
  match user with
  | none => .error "사용자를 찾을 수 없습니다."
  | some u =>
    if u.isAdmin then
      let key := jsOr envKey ((u.settings).bind (·.openaiApiKey))
      if jsTruthy key then .ok (key.getD "")
      else .error "OpenAI API 키가 설정되지 않았습니다."
    else
      let key := jsOr ((u.settings).bind (·.openaiApiKey)) envKey
      if jsTruthy key then .ok (key.getD "")
      else .error "OpenAI API 키가 설정되지 않았습니다. 설정에서 OpenAI API 키를 입력해 주세요."

/-- Modelled from the spec: `sanitizePrompt` (`api/lib/gemini.ts`) is not
under `src/`; the handler calls it with a 1000-character budget, so it is
modelled as capping the prompt at `maxLen` characters.  The claims settled
here do not depend on its internals, only on the fact that the prediction
request carries `sanitizePrompt(motionPrompt, 1000)` wrapped in the template
below. -/
def sanitizePrompt (prompt : String) (maxLen : Nat) : String :=
  ⟨prompt.toList.take maxLen⟩

/-- The enhanced-prompt template of the handler (lines 103-116); the
template literal starts and ends with a newline that `.trim()` removes. -/
def enhancedPrompt (sanitizedPrompt : String) : String :=
  "Cinematic video generation from reference image:\n"
    ++ sanitizedPrompt
    ++ "\n\nMotion & Camera Requirements:\n- Smooth, natural camera movements\n- Realistic motion physics\n- Cinematic quality, film-like aesthetics\n\nTechnical Requirements:\n- High quality video output\n- Consistent lighting throughout\n- No sudden jumps or artifacts"

/-- The result of one poll of the prediction endpoint, as seen by the
handler: either the fetch / JSON parse threw (`netFail`), or it produced a
JSON object with a `status` and optional `output`, `error` and `message`
fields. -/
inductive PollOutcome
  | netFail
  | reply (status : String) (output : Option String) (error : Option String)
      (message : Option String)
deriving DecidableEq, Repr

/-- How the polling loop of the handler ends.  Each constructor records the
number of polls that were performed; `success` also records the idealized
elapsed time (ms) at which the successful poll returned. -/
inductive LoopResult
  | success (videoUrl : String) (completedAtMs : Nat) (polls : Nat)
  | videoError (polls : Nat) (msg : String)
  | repeatedFailure (polls : Nat)
  | timeout (elapsedMs : Nat) (polls : Nat)
deriving DecidableEq, Repr

/-- The polling loop of the handler (lines 180-238), with the poll responses
resolved by the oracle `poll` (poll number ↦ outcome) and idealized time:
`elapsed` is the clock at the top of the iteration, each
`setTimeout(pollInterval)` adds exactly 5000 ms.  Mirrors the source: the
iteration first increments `pollCount`, then throws the timeout error if
more than `maxPollingTime = 300000` ms elapsed, then sleeps 5000 ms and
polls; a `success` status with truthy `output` returns, an `error` status
throws the video-generation error, a thrown poll (network/parse failure)
aborts once `pollCount > 3` and is retried otherwise, and anything else
keeps polling. -/
def pollLoop (poll : Nat → PollOutcome) (pollCount elapsed : Nat) : LoopResult :=
  if _h : 300000 < elapsed then .timeout elapsed pollCount
  else
    let c := pollCount + 1
    let e := elapsed + 5000
    match poll c with
    | .netFail =>
        if 3 < c then .repeatedFailure c
        else pollLoop poll c e
    | .reply status output error message =>
        if status = "success" ∧ jsTruthy output then
          .success (output.getD "") e c
        else if status = "error" then
          .videoError c ("비디오 생성 실패: " ++ jsOrStr (jsOr error message) "알 수 없는 오류")
        else
          pollLoop poll c e
termination_by 300001 - elapsed
decreasing_by all_goals omega

/-- The polling loop as entered by the handler: no polls done, clock at 0. -/
def runPolling (poll : Nat → PollOutcome) : LoopResult :=
  pollLoop poll 0 0

/-- Specification-side verdict of the `k`-th poll, following the spec's
reading of the loop: a `success` status with an output ends the loop with a
200, an `error` status ends it with the video-generation error, a
network/parse failure ends it with the repeated-failure error exactly when
`k > 3`, and anything else lets the loop continue. -/
def pollVerdict (k : Nat) (o : PollOutcome) : Option LoopResult :=
  match o with
  | .netFail => if 3 < k then some (.repeatedFailure k) else none
  | .reply status output error message =>
      if status = "success" ∧ jsTruthy output then
        some (.success (output.getD "") (5000 * k) k)
      else if status = "error" then
        some (.videoError k ("비디오 생성 실패: " ++ jsOrStr (jsOr error message) "알 수 없는 오류"))
      else none

/-- Specification-side polling run: the result of the loop is the verdict of
the first decisive poll among polls `k, k + 1, …` while fuel lasts; if none
of the polls is decisive the loop times out after its 61st poll, at the top
of the iteration whose idealized clock reads 305000 ms. -/
def specPollRun (poll : Nat → PollOutcome) : Nat → Nat → LoopResult
  | 0, _ => .timeout 305000 61
  | fuel + 1, k =>
    match pollVerdict k (poll k) with
    | some r => r
    | none => specPollRun poll fuel (k + 1)

/-- The request body of the `POST /api/generate-video` endpoint. -/
structure SourceImage where
  mimeType : String
  data : String
deriving DecidableEq, Repr

/-- Outcome of the prediction-creating call (lines 133-176), as seen through
the handler's `catch`: success with a prediction id; an auth failure whose
message mentions `401` / `Unauthorized` (answered with 403); or any other
failure message (re-thrown as `Hailuo API 호출 실패: …`). -/
inductive CreateOutcome
  | ok (predictionID : String)
  | authError
  | otherError (msg : String)
deriving DecidableEq, Repr

/-- The environment of one `POST /api/generate-video` request (request body,
authentication, stored user, environment variable, and oracles for the three
external calls).  `OPTIONS` and non-`POST` requests are answered before any
of this is read and are not modelled. -/
structure HEnv where
  authenticated : Bool
  sourceImage : Option SourceImage
  motionPrompt : Option String
  durationSeconds : Option Int
  user : Option User
  envHailuoKey : Option String
  uploadResult : Except String String
  createResult : CreateOutcome
  poll : Nat → PollOutcome

/-- An HTTP response of the handler: a 200 result or an error status with
the optional `code` field and the message. -/
inductive HResp
  | ok (videoUrl thumbnailUrl : String) (duration : Int)
  | err (status : Nat) (code : Option String) (message : String)
deriving DecidableEq, Repr

/-- The JSON body of the prediction-creating call (lines 142-152). -/
structure CreateRequest where
  model : String
  version : String
  prompt : String
  promptOptimizer : Bool
  imageUrl : String
  duration : String
deriving DecidableEq, Repr

/-- What one run of the handler did: the response it returned, whether the
image-upload call was issued, the prediction-creating request it issued (if
any), and how many polls it performed. -/
structure HandlerOut where
  resp : HResp
  uploadAttempted : Bool
  createReq : Option CreateRequest
  pollsUsed : Nat
deriving DecidableEq, Repr

/-- A response produced before any external call. -/
def noCall (r : HResp) : HandlerOut := ⟨r, false, none, 0⟩

/-- The outer `catch` of the handler (lines 240-276): classify a thrown
error message by substring, exactly as the source does. -/
def catchResponse (msg : String) : HResp :=
  if jsIncludes msg "PERMISSION_DENIED" || jsIncludes msg "403"
      || jsIncludes msg "Forbidden" || jsIncludes msg "Unauthorized" then
    .err 403 (some "PERMISSION_DENIED") "Hailuo API 접근 권한이 없습니다. API 키를 확인하세요."
  else if jsIncludes msg "QUOTA_EXCEEDED" || jsIncludes msg "429"
      || jsIncludes msg "Resource exhausted" || jsIncludes msg "rate limit" then
    .err 429 (some "QUOTA_EXCEEDED") "API 할당량을 초과했습니다. 잠시 후 다시 시도하세요."
  else if jsIncludes msg "비디오" || jsIncludes msg "Hailuo" then
    .err 500 (some "VIDEO_GENERATION_FAILED") msg
  else
    .err 500 (some "VIDEO_GENERATION_FAILED") ("비디오 생성 실패: " ++ msg)

/-- The `POST /api/generate-video` handler (src/api/generate-video.ts,
lines 50-277), from the authentication check onwards. -/
def handler (env : HEnv) : HandlerOut :=
  if !env.authenticated then
    noCall (.err 401 none "로그인이 필요합니다.")
  else
    match env.sourceImage with
    | none => noCall (.err 400 none "sourceImage is required")
    | some si =>
      if si.data = "" then noCall (.err 400 none "sourceImage is required")
      else if !jsTruthy env.motionPrompt then
        noCall (.err 400 none "motionPrompt is required")
      else
        let apiKey := hailuoApiKeyFor env.user env.envHailuoKey
        if !jsTruthy apiKey then
          noCall (.err 400 (some "API_KEY_MISSING")
            "Hailuo API 키가 설정되지 않았습니다. 설정에서 Hailuo API 키를 입력해 주세요.")
        else
          let durationSeconds := env.durationSeconds.getD 5
          let sanitized := sanitizePrompt (env.motionPrompt.getD "") 1000
          match env.uploadResult with
          | .error msg =>
            ⟨.err 500 (some "IMAGE_UPLOAD_FAILED") ("이미지 업로드 실패: " ++ msg),
             true, none, 0⟩
          | .ok imageUrl =>
            let req : CreateRequest :=
              ⟨HAILUO_MODEL, HAILUO_VERSION, enhancedPrompt sanitized, true, imageUrl,
               if durationSeconds ≤ 6 then "6" else "10"⟩
            match env.createResult with
            | .authError =>
              ⟨.err 403 (some "PERMISSION_DENIED")
                 "Hailuo API 키가 유효하지 않습니다. 키를 확인하세요.", true, some req, 0⟩
            | .otherError msg =>
              ⟨catchResponse ("Hailuo API 호출 실패: " ++ msg), true, some req, 0⟩
            | .ok _pid =>
              match runPolling env.poll with
              | .success videoUrl _t k =>
                ⟨.ok videoUrl ("data:" ++ si.mimeType ++ ";base64," ++ si.data)
                   durationSeconds, true, some req, k⟩
              | .videoError k msg => ⟨catchResponse msg, true, some req, k⟩
              | .repeatedFailure k =>
                ⟨catchResponse "비디오 생성 상태 확인이 반복 실패했습니다.", true, some req, k⟩
              | .timeout e k =>
                ⟨catchResponse ("비디오 생성 시간 초과 (" ++ toString (e / 1000)
                   ++ "초 경과). 나중에 다시 시도하세요."), true, some req, k⟩

end GenVideo

-- =============================================
-- Specification-side statements of the claimed prompt layouts
-- =============================================

namespace ImageP

/-- The nine blocks of the image prompt in the claimed order: subject,
environment (the custom environment when present, else the environment
preset prompt), composition (shot type, camera angle and framing preset
prompts joined by `", "`), lens preset prompt, lighting preset prompt, the
selected material preset prompts joined by `", "` (omitted — the empty
block — when no material is selected), style preset prompt, the selected
quality preset prompts joined by `", "`, and the additional details (empty
when absent). -/
def imagePromptBlocks (config : ImagePromptConfig) : List String :=
  [config.subject,
   jsOrStr config.customEnvironment (ENVIRONMENTS config.environment).prompt,
   (SHOT_TYPES config.shotType).prompt ++ ", " ++ (CAMERA_ANGLES config.cameraAngle).prompt
     ++ ", " ++ (FRAMINGS config.framing).prompt,
   (LENSES config.lens).prompt,
   (LIGHTINGS config.lighting).prompt,
   (if config.materials.isEmpty then ""
    else String.intercalate ", " (config.materials.map (fun k => (MATERIALS k).prompt))),
   (STYLES config.style).prompt,
   String.intercalate ", " (config.quality.map (fun k => (QUALITY_KEYWORDS k).prompt)),
   config.additionalDetails.getD ""]

/-- The claimed full prompt: exactly the non-empty blocks, in order, joined
with `". "` and a final `"."` appended. -/
def imageFullPromptSpec (config : ImagePromptConfig) : String :=
  String.intercalate ". " ((imagePromptBlocks config).filter (· != "")) ++ "."

/-- The claimed negative prompt: the default negative prompts, then the
human negative prompts exactly when `isHuman` is set, then the style
negative prompts, then the prompts of the selected optional negatives in
the order given — comma-joined. -/
def imageNegativeSpec (config : ImagePromptConfig) : String :=
  String.intercalate ", "
    (IMAGE_NEGATIVE_PROMPTS_default
      ++ (if config.isHuman then IMAGE_NEGATIVE_PROMPTS_human else [])
      ++ IMAGE_NEGATIVE_PROMPTS_style
      ++ config.negativeOptional.map (fun k => (IMAGE_NEGATIVE_PROMPTS_optional k).prompt))

end ImageP

namespace VideoP

/-- The five blocks of the video prompt in the claimed order: the subject
(from the character when given, else the custom subject, else `"A person"`)
concatenated with the trimmed action, the camera-angle and camera-movement
preset prompts joined by `", "`, the environment (custom when present, else
the preset prompt), the selected style preset prompts joined by `", "`, and
the selected quality preset prompts joined by `", "`. -/
def videoPromptBlocks (config : VideoPromptConfig) : List String :=
  [(match config.character with
    | some ch => buildSubjectFromCharacter ch
    | none => jsOrStr config.customSubject "A person") ++ " " ++ config.action.trim,
   (CAMERA_ANGLES config.cameraAngle).prompt ++ ", "
     ++ (CAMERA_MOVEMENTS config.cameraMovement).prompt,
   jsOrStr config.customEnvironment (ENVIRONMENTS config.environment).prompt,
   String.intercalate ", " (config.styles.map (fun k => (STYLES k).prompt)),
   String.intercalate ", " (config.quality.map (fun k => (QUALITY_KEYWORDS k).prompt))]

/-- The claimed video full prompt: exactly the non-empty blocks, in order,
joined with `". "` and a final `"."` appended. -/
def videoFullPromptSpec (config : VideoPromptConfig) : String :=
  String.intercalate ". " ((videoPromptBlocks config).filter (· != "")) ++ "."

/-- The claimed video negative prompt: the default negatives followed by
the selected optional negatives, comma-joined in order. -/
def videoNegativeSpec (config : VideoPromptConfig) : String :=
  String.intercalate ", "
    (NEGATIVE_PROMPTS_default
      ++ config.negativeOptional.map (fun k => (NEGATIVE_PROMPTS_optional k).prompt))

end VideoP

-- =============================================
-- Concrete inputs used by witnesses and counterexamples
-- =============================================

namespace GenVideo

/-- A poll oracle whose polls all report `processing` until poll 61, which
reports success: the latest poll the loop ever performs, landing at an
idealized 305000 ms — after the 5-minute bound. -/
def lateSuccessPoll : Nat → PollOutcome := fun k =>
  if k = 61 then .reply "success" (some "https://cdn.example.com/out.mp4") none none
  else .reply "processing" none none none

/-- A poll oracle whose polls 1-3 succeed (reporting `processing`) and whose
poll 4 fails for a network reason. -/
def fourthPollFails : Nat → PollOutcome := fun k =>
  if k = 4 then .netFail else .reply "processing" none none none

/-- A poll oracle that always reports `processing`: no poll is ever
decisive. -/
def allProcessingPoll : Nat → PollOutcome := fun _ =>
  .reply "processing" none none none

/-- A request environment whose prediction-creating call fails with an auth
error: the create request is issued but no poll ever happens. -/
def envCreateAuthFails : HEnv :=
  ⟨true, some ⟨"image/png", "QUJD"⟩, some "slow zoom in", some 5,
   some ⟨false, some ⟨some "user-hailuo-key", none⟩⟩, none,
   .ok "https://tmpfiles.org/dl/1/video_image.png", .authError,
   fun _ => .reply "processing" none none none⟩

/-- A request environment asking for 8 seconds of video, whose first poll
reports success. -/
def envDuration8 : HEnv :=
  ⟨true, some ⟨"image/jpeg", "QUJD"⟩, some "pan left", some 8,
   some ⟨false, some ⟨some "user-hailuo-key", none⟩⟩, none,
   .ok "https://tmpfiles.org/dl/2/video_image.jpg", .ok "pred-1",
   fun _ => .reply "success" (some "https://cdn.example.com/v.mp4") none none⟩

/-- The prediction-creating request issued by `envCreateAuthFails`. -/
def reqAuthFails : CreateRequest :=
  ⟨HAILUO_MODEL, HAILUO_VERSION, enhancedPrompt (sanitizePrompt "slow zoom in" 1000), true,
   "https://tmpfiles.org/dl/1/video_image.png", "6"⟩

/-- The prediction-creating request issued by `envDuration8`. -/
def reqDuration8 : CreateRequest :=
  ⟨HAILUO_MODEL, HAILUO_VERSION, enhancedPrompt (sanitizePrompt "pan left" 1000), true,
   "https://tmpfiles.org/dl/2/video_image.jpg", "10"⟩

/-- A valid request by an admin user who has stored keys of their own while
the `HAILUO_API_KEY` environment variable is unset. -/
def envAdminNoKey : HEnv :=
  ⟨true, some ⟨"image/png", "QUJD"⟩, some "zoom out", some 5,
   some ⟨true, some ⟨some "stored-hailuo", some "stored-openai"⟩⟩, none,
   .ok "https://tmpfiles.org/dl/3/video_image.png", .ok "pred-2",
   fun _ => .reply "processing" none none none⟩

end GenVideo

-- =============================================
-- Theorems: the polling loop
-- =============================================

namespace GenVideo

theorem pollVerdict_ne_timeout (k : Nat) (o : PollOutcome) (e p : Nat) :
    pollVerdict k o ≠ some (.timeout e p) := by
  cases o with
  | netFail => simp only [pollVerdict]; split_ifs <;> simp
  | reply s out err msg => simp only [pollVerdict]; split_ifs <;> simp

/-- Bridge between the embedded loop and its specification-side reading:
starting with `c` polls done at the idealized clock `5000 * c`, the loop
behaves as `specPollRun` with `61 - c` polls of fuel. -/
theorem pollLoop_eq_specPollRun (poll : Nat → PollOutcome) :
    ∀ d c, c + d = 61 → pollLoop poll c (5000 * c) = specPollRun poll d (c + 1) := by
  intro d
  induction d with
  | zero =>
      intro c hc
      have hc61 : c = 61 := by omega
      subst hc61
      rw [pollLoop]
      norm_num [specPollRun]
  | succ d ih =>
      intro c hc
      have h1 : ¬ 300000 < 5000 * c := by omega
      have h2 : 5000 * c + 5000 = 5000 * (c + 1) := by ring
      rw [pollLoop, dif_neg h1]
      cases hp : poll (c + 1) with
      | netFail =>
          by_cases h3 : 3 < c + 1
          · simp [specPollRun, pollVerdict, hp, h3]
          · simp only [specPollRun, pollVerdict, hp, h3, if_neg h3]
            rw [h2]
            exact ih (c + 1) (by omega)
      | reply s out err msg =>
          by_cases h3 : s = "success" ∧ jsTruthy out
          · simp [specPollRun, pollVerdict, hp, h3, h2]
          · by_cases h4 : s = "error"
            · simp [specPollRun, pollVerdict, hp, h3, h4]
            · simp only [specPollRun, pollVerdict, hp, if_neg h3, if_neg h4]
              rw [h2]
              exact ih (c + 1) (by omega)

/-- The run of the polling loop is its specification-side reading: the
verdict of the first decisive poll among the (at most) 61 polls, numbered
from 1, and a timeout at 305000 ms when none is decisive. -/
theorem runPolling_eq (poll : Nat → PollOutcome) :
    runPolling poll = specPollRun poll 61 1 := by
  have h := pollLoop_eq_specPollRun poll 61 0 (by omega)
  simpa [runPolling] using h

/-- Every specification-side run ends in one of the four loop outcomes, with
the stated bounds on the poll counter. -/
theorem specPollRun_cases (poll : Nat → PollOutcome) :
    ∀ fuel k₀,
      (∃ url k, k₀ ≤ k ∧ k + 1 ≤ k₀ + fuel
        ∧ pollVerdict k (poll k) = some (.success url (5000 * k) k)
        ∧ specPollRun poll fuel k₀ = .success url (5000 * k) k)
    ∨ (∃ k m, k₀ ≤ k ∧ specPollRun poll fuel k₀ = .videoError k m)
    ∨ (∃ k, 4 ≤ k ∧ specPollRun poll fuel k₀ = .repeatedFailure k)
    ∨ specPollRun poll fuel k₀ = .timeout 305000 61 := by
  intro fuel
  induction fuel with
  | zero => intro k₀; right; right; right; rfl
  | succ fuel ih =>
      intro k₀
      cases hp : poll k₀ with
      | netFail =>
          by_cases h3 : 3 < k₀
          · right; right; left
            exact ⟨k₀, by omega, by simp [specPollRun, pollVerdict, hp, h3]⟩
          · have he : specPollRun poll (fuel + 1) k₀ = specPollRun poll fuel (k₀ + 1) := by
              simp [specPollRun, pollVerdict, hp, h3]
            rw [he]
            rcases ih (k₀ + 1) with ⟨url, k, hk1, hk2, hk3, hk4⟩ | ⟨k, m, hk1, hk2⟩ |
                ⟨k, hk1, hk2⟩ | h
            · exact Or.inl ⟨url, k, by omega, by omega, hk3, hk4⟩
            · exact Or.inr (Or.inl ⟨k, m, by omega, hk2⟩)
            · exact Or.inr (Or.inr (Or.inl ⟨k, hk1, hk2⟩))
            · exact Or.inr (Or.inr (Or.inr h))
      | reply s out err msg =>
          by_cases h3 : s = "success" ∧ jsTruthy out
          · left
            exact ⟨out.getD "", k₀, le_refl _, by omega,
              by simp [pollVerdict, hp, h3], by simp [specPollRun, pollVerdict, hp, h3]⟩
          · by_cases h4 : s = "error"
            · right; left
              exact ⟨k₀, "비디오 생성 실패: " ++ jsOrStr (jsOr err msg) "알 수 없는 오류",
                le_refl _, by simp [specPollRun, pollVerdict, hp, h3, h4]⟩
            · have he : specPollRun poll (fuel + 1) k₀ = specPollRun poll fuel (k₀ + 1) := by
                simp [specPollRun, pollVerdict, hp, h3, h4]
              rw [he]
              rcases ih (k₀ + 1) with ⟨url, k, hk1, hk2, hk3, hk4⟩ | ⟨k, m, hk1, hk2⟩ |
                  ⟨k, hk1, hk2⟩ | h
              · exact Or.inl ⟨url, k, by omega, by omega, hk3, hk4⟩
              · exact Or.inr (Or.inl ⟨k, m, by omega, hk2⟩)
              · exact Or.inr (Or.inr (Or.inl ⟨k, hk1, hk2⟩))
              · exact Or.inr (Or.inr (Or.inr h))

/-- A specification-side run skips over a block of non-decisive polls. -/
theorem specPollRun_skip (poll : Nat → PollOutcome) :
    ∀ j fuel k₀, (∀ i, k₀ ≤ i → i < k₀ + j → pollVerdict i (poll i) = none) →
      specPollRun poll (fuel + j) k₀ = specPollRun poll fuel (k₀ + j) := by
  intro j
  induction j with
  | zero => intro fuel k₀ _; rfl
  | succ j ih =>
      intro fuel k₀ h
      have h0 : pollVerdict k₀ (poll k₀) = none := h k₀ (le_refl _) (by omega)
      have step : specPollRun poll ((fuel + j) + 1) k₀ = specPollRun poll (fuel + j) (k₀ + 1) := by
        simp [specPollRun, h0]
      rw [show fuel + (j + 1) = (fuel + j) + 1 from rfl, step,
        ih fuel (k₀ + 1) (fun i h1 h2 => h i (by omega) (by omega))]
      congr 1
      omega

/-- The specification-side run times out exactly when none of its polls is
decisive. -/
theorem specPollRun_timeout_iff (poll : Nat → PollOutcome) :
    ∀ fuel k₀, specPollRun poll fuel k₀ = .timeout 305000 61 ↔
      ∀ k, k₀ ≤ k → k < k₀ + fuel → pollVerdict k (poll k) = none := by
  intro fuel
  induction fuel with
  | zero =>
      intro k₀
      constructor
      · intro _ k h1 h2; omega
      · intro _; rfl
  | succ fuel ih =>
      intro k₀
      rcases hv : pollVerdict k₀ (poll k₀) with _ | r
      · have he : specPollRun poll (fuel + 1) k₀ = specPollRun poll fuel (k₀ + 1) := by
          simp [specPollRun, hv]
        rw [he, ih (k₀ + 1)]
        constructor
        · intro h k h1 h2
          rcases eq_or_lt_of_le h1 with rfl | hlt
          · exact hv
          · exact h k (by omega) (by omega)
        · intro h k h1 h2
          exact h k (by omega) (by omega)
      · have he : specPollRun poll (fuel + 1) k₀ = r := by simp [specPollRun, hv]
        rw [he]
        constructor
        · intro hr
          subst hr
          exact absurd hv (pollVerdict_ne_timeout _ _ _ _)
        · intro h
          rw [h k₀ (le_refl _) (by omega)] at hv
          cases hv

/-- A successful run of the polling loop comes from a decisive successful
poll: its poll number `k` is between 1 and 61, its idealized completion time
is `5000 * k` ms, and poll `k` did report `success` with a truthy output. -/
theorem runPolling_success (poll : Nat → PollOutcome) (url : String) (t k : Nat)
    (h : runPolling poll = .success url t k) :
    1 ≤ k ∧ k ≤ 61 ∧ t = 5000 * k
    ∧ pollVerdict k (poll k) = some (.success url (5000 * k) k) := by
  rw [runPolling_eq] at h
  rcases specPollRun_cases poll 61 1 with ⟨url', k', h1, h2, h3, h4⟩ | ⟨k', m, h1, h2⟩ |
      ⟨k', h1, h2⟩ | hh
  · rw [h4] at h
    obtain ⟨rfl, rfl, rfl⟩ : url' = url ∧ 5000 * k' = t ∧ k' = k := by
      cases h; exact ⟨rfl, rfl, rfl⟩
    exact ⟨h1, by omega, rfl, h3⟩
  · rw [h2] at h; cases h
  · rw [h2] at h; cases h
  · rw [hh] at h; cases h

/-- The outer catch never produces a 200 response. -/
theorem catchResponse_ne_ok (msg url thumb : String) (dur : Int) :
    catchResponse msg ≠ .ok url thumb dur := by
  unfold catchResponse
  split_ifs <;> simp

/-- C7: every run of the generate-video handler follows the pipeline order.
(1) Whenever a prediction-creating request is issued, it carries the enhanced
prompt built from the sanitized user motion prompt and the URL returned by
the (already successful) image upload.  (2) If the image upload failed, no
prediction-creating request is issued and no poll is performed.  (3) If any
poll was performed, both the upload and the prediction creation had
succeeded.  (4) If the upload or the prediction creation failed, the
response is computed without consulting the poll oracle at all.  (5) A 200
response is only produced after some poll reported `success` with an output,
and it carries that poll's output URL. -/
theorem claim_C7 (env : HEnv) :
    (∀ r, (handler env).createReq = some r →
        r.prompt = enhancedPrompt (sanitizePrompt (env.motionPrompt.getD "") 1000)
        ∧ env.uploadResult = .ok r.imageUrl
        ∧ (handler env).uploadAttempted = true)
    ∧ (∀ msg, env.uploadResult = .error msg →
        (handler env).createReq = none ∧ (handler env).pollsUsed = 0)
    ∧ (1 ≤ (handler env).pollsUsed →
        (∃ u, env.uploadResult = .ok u) ∧ (∃ p, env.createResult = .ok p))
    ∧ (∀ p', (env.createResult = .authError ∨ (∃ m, env.createResult = .otherError m)
          ∨ (∃ m, env.uploadResult = .error m)) →
        handler { env with poll := p' } = handler env)
    ∧ (∀ url thumb dur, (handler env).resp = .ok url thumb dur →
        ∃ k, 1 ≤ k ∧ k ≤ 61
          ∧ pollVerdict k (env.poll k) = some (.success url (5000 * k) k)
          ∧ (handler env).pollsUsed = k) := by
  obtain ⟨auth, si, mp, dur, user, envKey, up, cr, poll⟩ := env
  cases auth with
  | false => simp [handler, noCall]
  | true =>
    cases si with
    | none => simp [handler, noCall]
    | some s =>
      by_cases hd : s.data = ""
      · simp [handler, noCall, hd]
      · by_cases hmp : jsTruthy mp
        · by_cases hkey : jsTruthy (hailuoApiKeyFor user envKey)
          · cases up with
            | error m => simp [handler, noCall, hd, hmp, hkey]
            | ok imageUrl =>
              cases cr with
              | authError => simp [handler, noCall, hd, hmp, hkey]
              | otherError m =>
                refine ⟨?_, ?_, ?_, ?_, ?_⟩
                · intro r hr
                  simp [handler, hd, hmp, hkey] at hr
                  subst hr
                  simp [handler, hd, hmp, hkey]
                · intro msg hmsg; cases hmsg
                · intro hpolls
                  simp [handler, hd, hmp, hkey] at hpolls
                · intro p' _; simp [handler, hd, hmp, hkey]
                · intro url' thumb' dur' hresp
                  have : (handler ⟨true, some s, mp, dur, user, envKey, .ok imageUrl,
                      .otherError m, poll⟩).resp = catchResponse ("Hailuo API 호출 실패: " ++ m) := by
                    simp [handler, hd, hmp, hkey]
                  rw [this] at hresp
                  exact absurd hresp (catchResponse_ne_ok _ _ _ _)
              | ok pid =>
                rcases hlr : runPolling poll with ⟨url, t, k⟩ | ⟨k, m⟩ | k | ⟨e, k⟩
                · obtain ⟨hk1, hk2, ht, hv⟩ := runPolling_success poll url t k hlr
                  refine ⟨?_, ?_, ?_, ?_, ?_⟩
                  · intro r hr
                    simp [handler, hd, hmp, hkey, hlr] at hr
                    subst hr
                    simp [handler, hd, hmp, hkey, hlr]
                  · intro msg hmsg; cases hmsg
                  · intro _
                    exact ⟨⟨imageUrl, rfl⟩, ⟨pid, rfl⟩⟩
                  · intro p' hbad
                    rcases hbad with h | ⟨m, h⟩ | ⟨m, h⟩ <;> cases h
                  · intro url' thumb' dur' hresp
                    simp [handler, hd, hmp, hkey, hlr] at hresp
                    refine ⟨k, hk1, hk2, ?_, ?_⟩
                    · rw [← hresp.1]; exact hv
                    · simp [handler, hd, hmp, hkey, hlr]
                · refine ⟨?_, ?_, ?_, ?_, ?_⟩
                  · intro r hr
                    simp [handler, hd, hmp, hkey, hlr] at hr
                    subst hr
                    simp [handler, hd, hmp, hkey, hlr]
                  · intro msg hmsg; cases hmsg
                  · intro _; exact ⟨⟨imageUrl, rfl⟩, ⟨pid, rfl⟩⟩
                  · intro p' hbad
                    rcases hbad with h | ⟨m', h⟩ | ⟨m', h⟩ <;> cases h
                  · intro url' thumb' dur' hresp
                    have hR : (handler ⟨true, some s, mp, dur, user, envKey, .ok imageUrl,
                        .ok pid, poll⟩).resp = catchResponse (m) := by
                      simp [handler, hd, hmp, hkey, hlr]
                    rw [hR] at hresp
                    exact absurd hresp (catchResponse_ne_ok _ _ _ _)
                · refine ⟨?_, ?_, ?_, ?_, ?_⟩
                  · intro r hr
                    simp [handler, hd, hmp, hkey, hlr] at hr
                    subst hr
                    simp [handler, hd, hmp, hkey, hlr]
                  · intro msg hmsg; cases hmsg
                  · intro _; exact ⟨⟨imageUrl, rfl⟩, ⟨pid, rfl⟩⟩
                  · intro p' hbad
                    rcases hbad with h | ⟨m', h⟩ | ⟨m', h⟩ <;> cases h
                  · intro url' thumb' dur' hresp
                    have hR : (handler ⟨true, some s, mp, dur, user, envKey, .ok imageUrl,
                        .ok pid, poll⟩).resp = catchResponse ("비디오 생성 상태 확인이 반복 실패했습니다.") := by
                      simp [handler, hd, hmp, hkey, hlr]
                    rw [hR] at hresp
                    exact absurd hresp (catchResponse_ne_ok _ _ _ _)
                · refine ⟨?_, ?_, ?_, ?_, ?_⟩
                  · intro r hr
                    simp [handler, hd, hmp, hkey, hlr] at hr
                    subst hr
                    simp [handler, hd, hmp, hkey, hlr]
                  · intro msg hmsg; cases hmsg
                  · intro _; exact ⟨⟨imageUrl, rfl⟩, ⟨pid, rfl⟩⟩
                  · intro p' hbad
                    rcases hbad with h | ⟨m', h⟩ | ⟨m', h⟩ <;> cases h
                  · intro url' thumb' dur' hresp
                    have hR : (handler ⟨true, some s, mp, dur, user, envKey, .ok imageUrl,
                        .ok pid, poll⟩).resp = catchResponse ("비디오 생성 시간 초과 (" ++ toString (e / 1000) ++ "초 경과). 나중에 다시 시도하세요.") := by
                      simp [handler, hd, hmp, hkey, hlr]
                    rw [hR] at hresp
                    exact absurd hresp (catchResponse_ne_ok _ _ _ _)
          · simp [handler, noCall, hd, hmp, hkey]
        · simp [handler, noCall, hd, hmp]

/-- C2 (amended): the polling loop of the generate-video handler uses the
fixed 5000 ms interval and 300000 ms budget and always terminates, within 61
polls; its outcome is the verdict of the first decisive poll — a 200-result
carrying the output URL when a poll reports `success` with an output (poll
`k` completing at the idealized time `5000 * k` ms, which for `k = 61` is
305000 ms, after the 5-minute bound), the video-generation error when a poll
reports `error`, the repeated-failure error when a poll fails for a
non-video reason after more than 3 polls — and the timeout error, raised at
the start of the first iteration whose elapsed time exceeds 300000 ms,
exactly when none of the 61 polls is decisive. -/
theorem claim_C2 (poll : Nat → PollOutcome) :
    runPolling poll = specPollRun poll 61 1
    ∧ ((∃ url k, 1 ≤ k ∧ k ≤ 61
          ∧ pollVerdict k (poll k) = some (.success url (5000 * k) k)
          ∧ runPolling poll = .success url (5000 * k) k)
        ∨ (∃ k m, 1 ≤ k ∧ runPolling poll = .videoError k m)
        ∨ (∃ k, 4 ≤ k ∧ runPolling poll = .repeatedFailure k)
        ∨ runPolling poll = .timeout 305000 61)
    ∧ (runPolling poll = .timeout 305000 61 ↔
        ∀ k, 1 ≤ k → k ≤ 61 → pollVerdict k (poll k) = none) := by
  refine ⟨runPolling_eq poll, ?_, ?_⟩
  · rcases specPollRun_cases poll 61 1 with ⟨url, k, h1, h2, h3, h4⟩ | ⟨k, m, h1, h2⟩ |
        ⟨k, h1, h2⟩ | h
    · exact Or.inl ⟨url, k, h1, by omega, h3, by rw [runPolling_eq]; exact h4⟩
    · exact Or.inr (Or.inl ⟨k, m, h1, by rw [runPolling_eq]; exact h2⟩)
    · exact Or.inr (Or.inr (Or.inl ⟨k, h1, by rw [runPolling_eq]; exact h2⟩))
    · exact Or.inr (Or.inr (Or.inr (by rw [runPolling_eq]; exact h)))
  · rw [runPolling_eq, specPollRun_timeout_iff]
    constructor
    · intro h k h1 h2
      exact h k h1 (by omega)
    · intro h k h1 h2
      exact h k h1 (by omega)

/-- C2 (counterexample to the claim as stated): if every poll reports
`processing` until the 61st, which reports `success` with an output, the
loop returns the successful result at the idealized time 305000 ms — a
successful response produced after the 300000 ms (5-minute) bound, so the
claim's "no successful response is produced after the 5-minute bound" is
false. -/
theorem claim_C2_counterexample :
    runPolling lateSuccessPoll =
      .success "https://cdn.example.com/out.mp4" 305000 61
    ∧ 300000 < 305000 := by
  constructor
  · rw [runPolling_eq]
    decide
  · decide

/-- Witness for the amended C2 at a concrete oracle: the all-`processing`
oracle has no decisive poll, so the run times out at 305000 ms after its
61st poll. -/
theorem claim_C2_witness :
    runPolling allProcessingPoll = .timeout 305000 61 :=
  (claim_C2 allProcessingPoll).2.2.mpr (fun _ _ _ => rfl)

/-- C9: in the polling loop, a poll that fails for a non-video reason
(network or parse error) aborts the run with the repeated-failure error
exactly when its poll number — the total number of polls performed so far,
not a count of consecutive failures — exceeds 3; at poll number 3 or less
the loop simply carries on with the next poll. -/
theorem claim_C9 (poll : Nat → PollOutcome) (k : Nat) (h1 : 1 ≤ k) (h2 : k ≤ 61)
    (hearlier : ∀ j, 1 ≤ j → j < k → pollVerdict j (poll j) = none)
    (hfail : poll k = .netFail) :
    (3 < k → runPolling poll = .repeatedFailure k)
    ∧ (k ≤ 3 → runPolling poll = specPollRun poll (61 - k) (k + 1)) := by
  have hskip : specPollRun poll 61 1 = specPollRun poll (62 - k) k := by
    have h := specPollRun_skip poll (k - 1) (62 - k) 1
      (fun i hi1 hi2 => hearlier i hi1 (by omega))
    rw [show (62 - k) + (k - 1) = 61 from by omega] at h
    rw [h, show 1 + (k - 1) = k from by omega]
  have hstep : specPollRun poll (62 - k) k =
      match pollVerdict k (poll k) with
      | some r => r
      | none => specPollRun poll (61 - k) (k + 1) := by
    rw [show 62 - k = (61 - k) + 1 from by omega]
    rfl
  constructor
  · intro h3
    rw [runPolling_eq, hskip, hstep, hfail]
    simp [pollVerdict, h3]
  · intro h3
    rw [runPolling_eq, hskip, hstep, hfail]
    simp [pollVerdict, show ¬ 3 < k from by omega]

/-- Witness for C9: polls 1-3 all succeed (they report `processing`) and
poll 4 fails for a network reason; since 4 > 3 that single failed poll
aborts the run with the repeated-failure error. -/
theorem claim_C9_witness :
    runPolling fourthPollFails = .repeatedFailure 4 := by
  have h := claim_C9 fourthPollFails 4 (by norm_num) (by norm_num)
    (fun j hj1 hj2 => by interval_cases j <;> rfl) (by rfl)
  exact h.1 (by norm_num)

/-- Witness for C7 at a concrete request: the create request issued by
`envCreateAuthFails` carries the enhanced prompt built from its motion
prompt and the URL its image upload returned, and the upload was attempted. -/
theorem claim_C7_witness :
    reqAuthFails.prompt =
        enhancedPrompt (sanitizePrompt (envCreateAuthFails.motionPrompt.getD "") 1000)
    ∧ envCreateAuthFails.uploadResult = .ok reqAuthFails.imageUrl
    ∧ (handler envCreateAuthFails).uploadAttempted = true :=
  (claim_C7 envCreateAuthFails).1 reqAuthFails (by rfl)

/-- C8: the duration sent to the Hailuo API in the prediction-creating
request is always the string `"6"` or `"10"` — `"6"` exactly when the
requested `durationSeconds` (default 5) is at most 6 — while the `duration`
field of a 200 response echoes the requested `durationSeconds` unchanged;
consequently, for a requested duration outside {6, 10} the number sent to
the video API differs from the duration reported back. -/
theorem claim_C8 (env : HEnv) :
    (∀ r, (handler env).createReq = some r →
        r.duration = (if env.durationSeconds.getD 5 ≤ 6 then "6" else "10")
        ∧ (r.duration = "6" ∨ r.duration = "10")
        ∧ (r.duration = "6" ↔ env.durationSeconds.getD 5 ≤ 6))
    ∧ (∀ url thumb dur, (handler env).resp = .ok url thumb dur →
        dur = env.durationSeconds.getD 5)
    ∧ (env.durationSeconds.getD 5 ≠ 6 → env.durationSeconds.getD 5 ≠ 10 →
        (if env.durationSeconds.getD 5 ≤ 6 then (6 : Int) else 10) ≠
          env.durationSeconds.getD 5) := by
  obtain ⟨auth, si, mp, dur, user, envKey, up, cr, poll⟩ := env
  have hdur : ∀ s : String,
      s = (if (dur.getD 5 : Int) ≤ 6 then "6" else "10") →
      s = (if (dur.getD 5 : Int) ≤ 6 then "6" else "10")
      ∧ (s = "6" ∨ s = "10") ∧ (s = "6" ↔ (dur.getD 5 : Int) ≤ 6) := by
    intro s hs
    subst hs
    by_cases h : (dur.getD 5 : Int) ≤ 6 <;> simp [h]
  refine ⟨?_, ?_, ?_⟩
  · cases auth with
    | false => simp [handler, noCall]
    | true =>
      cases si with
      | none => simp [handler, noCall]
      | some s =>
        by_cases hd : s.data = ""
        · simp [handler, noCall, hd]
        · by_cases hmp : jsTruthy mp
          · by_cases hkey : jsTruthy (hailuoApiKeyFor user envKey)
            · cases up with
              | error m => simp [handler, noCall, hd, hmp, hkey]
              | ok imageUrl =>
                cases cr with
                | authError =>
                  intro r hr
                  simp [handler, hd, hmp, hkey] at hr
                  subst hr
                  exact hdur _ rfl
                | otherError m =>
                  intro r hr
                  simp [handler, hd, hmp, hkey] at hr
                  subst hr
                  exact hdur _ rfl
                | ok pid =>
                  intro r hr
                  rcases hlr : runPolling poll with ⟨url, t, k⟩ | ⟨k, m⟩ | k | ⟨e, k⟩ <;>
                    (simp [handler, hd, hmp, hkey, hlr] at hr; subst hr; exact hdur _ rfl)
            · simp [handler, noCall, hd, hmp, hkey]
          · simp [handler, noCall, hd, hmp]
  · cases auth with
    | false => simp [handler, noCall]
    | true =>
      cases si with
      | none => simp [handler, noCall]
      | some s =>
        by_cases hd : s.data = ""
        · simp [handler, noCall, hd]
        · by_cases hmp : jsTruthy mp
          · by_cases hkey : jsTruthy (hailuoApiKeyFor user envKey)
            · cases up with
              | error m => simp [handler, noCall, hd, hmp, hkey]
              | ok imageUrl =>
                cases cr with
                | authError => simp [handler, hd, hmp, hkey]
                | otherError m =>
                  intro url thumb dur' hresp
                  have hR : (handler ⟨true, some s, mp, dur, user, envKey, .ok imageUrl,
                      .otherError m, poll⟩).resp =
                      catchResponse ("Hailuo API 호출 실패: " ++ m) := by
                    simp [handler, hd, hmp, hkey]
                  rw [hR] at hresp
                  exact absurd hresp (catchResponse_ne_ok _ _ _ _)
                | ok pid =>
                  intro url thumb dur' hresp
                  rcases hlr : runPolling poll with ⟨url₀, t, k⟩ | ⟨k, m⟩ | k | ⟨e, k⟩
                  · simp [handler, hd, hmp, hkey, hlr] at hresp
                    exact hresp.2.2.symm
                  · have hR : (handler ⟨true, some s, mp, dur, user, envKey, .ok imageUrl,
                        .ok pid, poll⟩).resp = catchResponse m := by
                      simp [handler, hd, hmp, hkey, hlr]
                    rw [hR] at hresp
                    exact absurd hresp (catchResponse_ne_ok _ _ _ _)
                  · have hR : (handler ⟨true, some s, mp, dur, user, envKey, .ok imageUrl,
                        .ok pid, poll⟩).resp =
                        catchResponse "비디오 생성 상태 확인이 반복 실패했습니다." := by
                      simp [handler, hd, hmp, hkey, hlr]
                    rw [hR] at hresp
                    exact absurd hresp (catchResponse_ne_ok _ _ _ _)
                  · have hR : (handler ⟨true, some s, mp, dur, user, envKey, .ok imageUrl,
                        .ok pid, poll⟩).resp = catchResponse ("비디오 생성 시간 초과 ("
                          ++ toString (e / 1000) ++ "초 경과). 나중에 다시 시도하세요.") := by
                      simp [handler, hd, hmp, hkey, hlr]
                    rw [hR] at hresp
                    exact absurd hresp (catchResponse_ne_ok _ _ _ _)
            · simp [handler, noCall, hd, hmp, hkey]
          · simp [handler, noCall, hd, hmp]
  · intro h6 h10
    split_ifs with h <;> omega

/-- Witness for C8 at a concrete request asking for 8 seconds: the request
sent to the video API carries duration `"10"`, the 200 response reports 8,
and 8 is neither 6 nor 10, so the two differ. -/
theorem claim_C8_witness :
    reqDuration8.duration = "10"
    ∧ (∀ url thumb dur, (handler envDuration8).resp = .ok url thumb dur → dur = 8)
    ∧ (if (8 : Int) ≤ 6 then (6 : Int) else 10) ≠ 8 := by
  have hlr : runPolling (fun _ => PollOutcome.reply "success"
      (some "https://cdn.example.com/v.mp4") none none) =
      .success "https://cdn.example.com/v.mp4" 5000 1 := by
    rw [runPolling_eq]
    decide
  have h := claim_C8 envDuration8
  have hcr : (handler envDuration8).createReq = some reqDuration8 := by
    simp [handler, envDuration8, hlr, reqDuration8, jsTruthy, hailuoApiKeyFor, jsOr]
  refine ⟨?_, ?_, ?_⟩
  · have h1 := (h.1 reqDuration8 hcr).1
    simpa [envDuration8] using h1
  · intro url thumb dur hresp
    have h2 := h.2.1 url thumb dur hresp
    rw [h2]
    rfl
  · have h3 := h.2.2 (by simp [envDuration8]) (by simp [envDuration8])
    exact h3

/-- C10: API-key selection follows a fixed precedence.  For the Hailuo key
of the generate-video handler: an admin gets the environment variable
exclusively (even when a stored user key exists), every other requester gets
the stored user key with the environment variable as fallback, and when the
chosen key is missing the handler answers HTTP 400 with `API_KEY_MISSING`
before attempting the upload, the prediction creation, or any poll.  For the
OpenAI key of `getOpenAIKeyForUser`: an admin gets the environment variable
first with the stored user key as fallback, a non-admin the stored key first
with the environment variable as fallback, and when neither source yields a
key the function fails with the key-missing error. -/
theorem claim_C10 :
    (∀ (u : User) (envKey : Option String), u.isAdmin = true →
        hailuoApiKeyFor (some u) envKey = envKey)
    ∧ (∀ (user : Option User) (envKey : Option String),
        (user.map (·.isAdmin)).getD false = false →
        hailuoApiKeyFor user envKey =
          (if jsTruthy ((user.bind (·.settings)).bind (·.hailuoApiKey))
           then (user.bind (·.settings)).bind (·.hailuoApiKey) else envKey))
    ∧ (∀ (env : HEnv) (si : SourceImage), env.authenticated = true →
        env.sourceImage = some si → si.data ≠ "" → jsTruthy env.motionPrompt = true →
        jsTruthy (hailuoApiKeyFor env.user env.envHailuoKey) = false →
        handler env = noCall (.err 400 (some "API_KEY_MISSING")
          "Hailuo API 키가 설정되지 않았습니다. 설정에서 Hailuo API 키를 입력해 주세요."))
    ∧ (∀ (u : User) (envKey : Option String), u.isAdmin = true →
        jsTruthy envKey = true →
        getOpenAIKeyForUser (some u) envKey = .ok (envKey.getD ""))
    ∧ (∀ (u : User) (envKey : Option String), u.isAdmin = true →
        jsTruthy envKey = false →
        getOpenAIKeyForUser (some u) envKey =
          (if jsTruthy ((u.settings).bind (·.openaiApiKey))
           then .ok (((u.settings).bind (·.openaiApiKey)).getD "")
           else .error "OpenAI API 키가 설정되지 않았습니다."))
    ∧ (∀ (u : User) (envKey : Option String), u.isAdmin = false →
        jsTruthy ((u.settings).bind (·.openaiApiKey)) = true →
        getOpenAIKeyForUser (some u) envKey =
          .ok ((((u.settings).bind (·.openaiApiKey))).getD ""))
    ∧ (∀ (u : User) (envKey : Option String), u.isAdmin = false →
        jsTruthy ((u.settings).bind (·.openaiApiKey)) = false →
        getOpenAIKeyForUser (some u) envKey =
          (if jsTruthy envKey then .ok (envKey.getD "")
           else .error "OpenAI API 키가 설정되지 않았습니다. 설정에서 OpenAI API 키를 입력해 주세요.")) := by
  refine ⟨?_, ?_, ?_, ?_, ?_, ?_, ?_⟩
  · intro u envKey hadmin
    simp [hailuoApiKeyFor, hadmin]
  · intro user envKey hnotadmin
    simp [hailuoApiKeyFor, hnotadmin, jsOr]
  · intro env si hauth hsi hd hmp hkey
    obtain ⟨auth, si', mp, dur, user, envKey, up, cr, poll⟩ := env
    simp only at hauth hsi hmp hkey
    subst hauth hsi
    simp [handler, hd, hmp, hkey]
  · intro u envKey hadmin henvKey
    simp [getOpenAIKeyForUser, hadmin, jsOr, henvKey]
  · intro u envKey hadmin henvKey
    by_cases hstored : jsTruthy ((u.settings).bind (·.openaiApiKey))
    · simp [getOpenAIKeyForUser, hadmin, jsOr, henvKey, hstored]
    · simp [getOpenAIKeyForUser, hadmin, jsOr, henvKey, hstored]
  · intro u envKey hnotadmin hstored
    simp [getOpenAIKeyForUser, hnotadmin, jsOr, hstored]
  · intro u envKey hnotadmin hstored
    by_cases henvKey : jsTruthy envKey
    · simp [getOpenAIKeyForUser, hnotadmin, jsOr, hstored, henvKey]
    · simp [getOpenAIKeyForUser, hnotadmin, jsOr, hstored, henvKey]

/-- Witness for C10 at concrete users: an admin with stored keys but no
environment variable gets no Hailuo key at all and the handler answers 400
`API_KEY_MISSING` without any external call, while the same admin's OpenAI
lookup falls back to the stored OpenAI key. -/
theorem claim_C10_witness :
    hailuoApiKeyFor (some ⟨true, some ⟨some "stored-hailuo", some "stored-openai"⟩⟩) none = none
    ∧ handler envAdminNoKey = noCall (.err 400 (some "API_KEY_MISSING")
        "Hailuo API 키가 설정되지 않았습니다. 설정에서 Hailuo API 키를 입력해 주세요.")
    ∧ getOpenAIKeyForUser (some ⟨true, some ⟨some "stored-hailuo", some "stored-openai"⟩⟩) none =
        .ok "stored-openai" := by
  refine ⟨claim_C10.1 _ none rfl, ?_, ?_⟩
  · exact claim_C10.2.2.1 envAdminNoKey ⟨"image/png", "QUJD"⟩ rfl rfl (by decide) rfl rfl
  · have h := claim_C10.2.2.2.2.1 ⟨true, some ⟨some "stored-hailuo", some "stored-openai"⟩⟩
      none rfl rfl
    simpa using h

end GenVideo

-- =============================================
-- Theorems: long-form scene-to-part splitting
-- =============================================

namespace Longform

/-- Slicing a list along the computed part ranges and concatenating the
slices gives back the list: the ranges tile the index space `[0, length)`. -/
theorem parts_join : ∀ (l : List LongformScene),
    ((calculatePartRanges l.length).map (sliceRange l)).flatten = l
  | [] => rfl
  | [a] => by
    have h : calculatePartRanges 1 = [⟨0, 1⟩] := by decide
    show ((calculatePartRanges [a].length).map (sliceRange [a])).flatten = [a]
    rw [show [a].length = 1 from rfl, h]
    rfl
  | a :: b :: rest => by
    have ih := parts_join rest
    have hlen : ((a :: b :: rest).length + 1) / 2 = (rest.length + 1) / 2 + 1 := by
      simp only [List.length_cons]
      omega
    rw [calculatePartRanges, hlen, List.range_succ_eq_map, List.map_cons, List.map_cons,
      List.map_map, List.map_map, List.flatten_cons]
    have hhead : sliceRange (a :: b :: rest)
        ⟨2 * 0, Nat.min (2 * 0 + 2) (a :: b :: rest).length⟩ = [a, b] := by
      have h2 : Nat.min (2 * 0 + 2) (a :: b :: rest).length = 2 := by
        simp only [Nat.min_def, List.length_cons]
        split_ifs <;> omega
      rw [sliceRange, h2]
      rfl
    have hshift : ((sliceRange (a :: b :: rest)) ∘
          fun i => (⟨2 * i, Nat.min (2 * i + 2) (a :: b :: rest).length⟩ : PartRange)) ∘
            Nat.succ =
        (sliceRange rest) ∘ (fun i => ⟨2 * i, Nat.min (2 * i + 2) rest.length⟩) := by
      funext i
      show ((a :: b :: rest).drop (2 * Nat.succ i)).take
          (Nat.min (2 * Nat.succ i + 2) (a :: b :: rest).length - 2 * Nat.succ i) =
        (rest.drop (2 * i)).take (Nat.min (2 * i + 2) rest.length - 2 * i)
      have hdrop : (a :: b :: rest).drop (2 * Nat.succ i) = rest.drop (2 * i) := by
        rw [show 2 * Nat.succ i = 2 * i + 1 + 1 from by omega]
        rfl
      have htake : Nat.min (2 * Nat.succ i + 2) (a :: b :: rest).length - 2 * Nat.succ i =
          Nat.min (2 * i + 2) rest.length - 2 * i := by
        simp only [Nat.min_def, List.length_cons, Nat.succ_eq_add_one]
        split_ifs <;> omega
      rw [hdrop, htake]
    rw [hhead, hshift]
    have htail := ih
    rw [calculatePartRanges, List.map_map] at htail
    rw [htail]
    rfl

/-- C3: `splitScenesForExportMulti` is the claimed deterministic array
transformation: it returns as many parts as ranges, its ranges are
`calculatePartRanges` of the scene count, part `i` is exactly the slice of
the scene array over the `i`-th range, and concatenating the parts in order
gives back the scenario's scene array unchanged. -/
theorem claim_C3 (scenario : LongformScenario) :
    (splitScenesForExportMulti scenario).parts.length =
        (splitScenesForExportMulti scenario).ranges.length
    ∧ (splitScenesForExportMulti scenario).ranges =
        calculatePartRanges scenario.scenes.length
    ∧ (∀ i, i < (splitScenesForExportMulti scenario).ranges.length →
        (splitScenesForExportMulti scenario).parts.getD i [] =
          sliceRange scenario.scenes
            ((splitScenesForExportMulti scenario).ranges.getD i default))
    ∧ (splitScenesForExportMulti scenario).parts.flatten = scenario.scenes := by
  refine ⟨by simp [splitScenesForExportMulti], rfl, ?_, parts_join scenario.scenes⟩
  intro i hi
  simp only [splitScenesForExportMulti] at hi ⊢
  rw [List.getD_eq_getElem?_getD, List.getD_eq_getElem?_getD, List.getElem?_map,
    List.getElem?_eq_getElem hi]
  rfl

/-- Witness for C3 at a concrete five-scene scenario: its third part is the
slice over the third range, and the parts concatenate back to the scene
array. -/
theorem claim_C3_witness :
    (splitScenesForExportMulti sampleScenario).parts.getD 2 [] =
        sliceRange sampleScenario.scenes
          ((splitScenesForExportMulti sampleScenario).ranges.getD 2 default)
    ∧ (splitScenesForExportMulti sampleScenario).parts.flatten = sampleScenario.scenes :=
  ⟨(claim_C3 sampleScenario).2.2.1 2 (by decide), (claim_C3 sampleScenario).2.2.2⟩

end Longform

-- =============================================
-- Theorems: prompt builders
-- =============================================

/-- A list of preset prompts contains no empty string, so the builders'
`filter(Boolean)` is the identity on it. -/
theorem filter_map_ne {κ : Type} (f : κ → String) (hf : ∀ k, (f k != "") = true)
    (l : List κ) : (l.map f).filter (· != "") = l.map f := by
  rw [List.filter_eq_self]
  intro a ha
  obtain ⟨k, _, rfl⟩ := List.mem_map.mp ha
  exact hf k

namespace ImageP

theorem material_prompt_ne (k : MaterialKey) : ((MATERIALS k).prompt != "") = true := by
  cases k <;> rfl

theorem quality_prompt_ne (k : QualityKey) : ((QUALITY_KEYWORDS k).prompt != "") = true := by
  cases k <;> rfl

/-- C1: `buildImagePrompt` assembles `fullPrompt` as the claimed 9-block
string transformation — it joins with `". "` (appending a final `"."`)
exactly the non-empty blocks, in order: subject, environment, composition,
lens, lighting, materials (omitted when none is selected), style, quality
keywords, additional details — and the `breakdown` fields equal the
corresponding block strings. -/
theorem claim_C1 (config : ImagePromptConfig) :
    (buildImagePrompt config).fullPrompt = imageFullPromptSpec config
    ∧ (buildImagePrompt config).breakdown =
        ⟨(imagePromptBlocks config).getD 0 "", (imagePromptBlocks config).getD 1 "",
         (imagePromptBlocks config).getD 2 "", (imagePromptBlocks config).getD 3 "",
         (imagePromptBlocks config).getD 4 "", (imagePromptBlocks config).getD 5 "",
         (imagePromptBlocks config).getD 6 "", (imagePromptBlocks config).getD 7 ""⟩ := by
  obtain ⟨subj, isH, st, ca, fr, le, env, cenv, li, mats, sty, qual, nego, addl⟩ := config
  have hmat := filter_map_ne (fun k => (MATERIALS k).prompt) material_prompt_ne mats
  have hq := filter_map_ne (fun k => (QUALITY_KEYWORDS k).prompt) quality_prompt_ne qual
  constructor
  · simp only [buildImagePrompt, imageFullPromptSpec, imagePromptBlocks, hmat, hq]
    cases mats with
    | nil => simp
    | cons x xs => simp
  · simp only [buildImagePrompt, imagePromptBlocks, hmat, hq]
    cases mats with
    | nil => simp
    | cons x xs => simp

/-- C4: `buildImagePrompt`'s `negativePrompt` is the comma-joined
concatenation, in fixed order, of the default negatives, then the human
negatives exactly when `isHuman` is set (never otherwise), then the style
negatives, then the selected optional negatives in order; every other part
of the result is independent of `isHuman`. -/
theorem claim_C4 (config : ImagePromptConfig) (b : Bool) :
    (buildImagePrompt config).negativePrompt = imageNegativeSpec config
    ∧ (buildImagePrompt { config with isHuman := b }).fullPrompt =
        (buildImagePrompt config).fullPrompt
    ∧ (buildImagePrompt { config with isHuman := b }).breakdown =
        (buildImagePrompt config).breakdown := by
  obtain ⟨subj, isH, st, ca, fr, le, env, cenv, li, mats, sty, qual, nego, addl⟩ := config
  exact ⟨rfl, rfl, rfl⟩

end ImageP

namespace VideoP

theorem style_prompt_ne (k : StyleKey) : ((STYLES k).prompt != "") = true := by
  cases k <;> rfl

theorem vquality_prompt_ne (k : QualityKey) : ((QUALITY_KEYWORDS k).prompt != "") = true := by
  cases k <;> rfl

/-- C5: `buildVideoPrompt` assembles `fullPrompt` by joining with `". "`
(plus a final `"."`) exactly the non-empty blocks, in order: the subject
(from the character when given, else the custom subject, else `"A person"`)
concatenated with the trimmed action, the camera-angle and camera-movement
preset prompts joined by `", "`, the environment, the selected style preset
prompts joined by `", "`, and the selected quality preset prompts joined by
`", "`; and `negativePrompt` is the default negatives followed by the
selected optional negatives, comma-joined in order. -/
theorem claim_C5 (config : VideoPromptConfig) :
    (buildVideoPrompt config).fullPrompt = videoFullPromptSpec config
    ∧ (buildVideoPrompt config).negativePrompt = videoNegativeSpec config := by
  obtain ⟨ch, csub, act, ca, cm, env, cenv, stys, qual, nego⟩ := config
  have hs := filter_map_ne (fun k => (STYLES k).prompt) style_prompt_ne stys
  have hq := filter_map_ne (fun k => (QUALITY_KEYWORDS k).prompt) vquality_prompt_ne qual
  constructor
  · simp only [buildVideoPrompt, videoFullPromptSpec, videoPromptBlocks, hs, hq]
  · rfl

end VideoP

/-- C6: the prompt-construction functions are deterministic — on equal
inputs each of `buildImagePrompt`, `buildVideoPrompt`,
`buildSimpleImagePrompt`, `getAIRecommendation` and `buildSimplePrompt`
produces equal outputs.  (In this embedding the functions are pure Lean
functions of their arguments alone, so no output depends on anything other
than the given input.) -/
theorem claim_C6 :
    (∀ c₁ c₂ : ImageP.ImagePromptConfig, c₁ = c₂ →
        ImageP.buildImagePrompt c₁ = ImageP.buildImagePrompt c₂)
    ∧ (∀ v₁ v₂ : VideoP.VideoPromptConfig, v₁ = v₂ →
        VideoP.buildVideoPrompt v₁ = VideoP.buildVideoPrompt v₂)
    ∧ (∀ (s₁ s₂ : String) (m₁ m₂ : Option ImageP.MoodKey) (h₁ h₂ : Bool),
        s₁ = s₂ → m₁ = m₂ → h₁ = h₂ →
        ImageP.buildSimpleImagePrompt s₁ m₁ h₁ = ImageP.buildSimpleImagePrompt s₂ m₂ h₂)
    ∧ (∀ (s₁ s₂ : String) (m₁ m₂ : Option ImageP.MoodKey), s₁ = s₂ → m₁ = m₂ →
        ImageP.getAIRecommendation s₁ m₁ = ImageP.getAIRecommendation s₂ m₂)
    ∧ (∀ (a₁ a₂ : String) (m₁ m₂ : Option VideoP.MoodKey) (ch₁ ch₂ : Option Character),
        a₁ = a₂ → m₁ = m₂ → ch₁ = ch₂ →
        VideoP.buildSimplePrompt a₁ m₁ ch₁ = VideoP.buildSimplePrompt a₂ m₂ ch₂) := by
  refine ⟨?_, ?_, ?_, ?_, ?_⟩ <;> (intros; subst_vars; rfl)

/-- Witness for C6 at concrete inputs. -/
theorem claim_C6_witness :
    ImageP.buildImagePrompt (ImageP.createDefaultImageConfig "a stray cat" false) =
        ImageP.buildImagePrompt (ImageP.createDefaultImageConfig "a stray cat" false)
    ∧ VideoP.buildVideoPrompt (VideoP.createDefaultConfig none "웃으며 걷는다") =
        VideoP.buildVideoPrompt (VideoP.createDefaultConfig none "웃으며 걷는다")
    ∧ ImageP.buildSimpleImagePrompt "서울의 아침" (some .romantic) true =
        ImageP.buildSimpleImagePrompt "서울의 아침" (some .romantic) true
    ∧ ImageP.getAIRecommendation "hero portrait" (some .dramatic) =
        ImageP.getAIRecommendation "hero portrait" (some .dramatic)
    ∧ VideoP.buildSimplePrompt "천천히 걷는다" (some .peaceful) none =
        VideoP.buildSimplePrompt "천천히 걷는다" (some .peaceful) none :=
  ⟨claim_C6.1 _ _ rfl, claim_C6.2.1 _ _ rfl,
   claim_C6.2.2.1 _ _ _ _ _ _ rfl rfl rfl,
   claim_C6.2.2.2.1 _ _ _ _ rfl rfl,
   claim_C6.2.2.2.2 _ _ _ _ _ _ rfl rfl rfl⟩

end S2V
